import Mathlib

/-!
Shallow embedding of the tenancy onboarding / document-extraction core of the
`energy_contracts` Django backend, together with proofs about its behaviour.

The embedding follows the Python source:
  * `backend/users/models.py`      — `Tenancy`, `Renter`, `TenancyAgreement`,
    `TenantInvitation`, `User`, `Household` and their save/clean logic,
    including the `one_active_tenancy_per_household` partial unique constraint.
  * `backend/users/schemas.py`     — the Pydantic validation schemas.
  * `backend/users/views/onboarding.py` — `upload_tenancy`, `process_tenancy`,
    `confirm_tenancy`.
  * `backend/users/views/tenancies.py`  — `create`, `update`, `activate`,
    `start_moveout`, `mark_moved_out`, `add_renter`, `_add_renter_to_tenancy`.
  * `backend/ai_services/providers/gemini.py` — result assembly of
    `extract_tenant_data` (backward-compatibility fields).
  * `backend/ai_services/utils/file_converter.py` — `convert_to_pdf`.

Conventions: calendar dates are modelled as `Nat` (day ordinals, comparison
preserved), `Decimal` money amounts as `Int`, database rows as entries of
lists inside a `DB` record, and Python exceptions as `Except`/`Option`
results.  Each operation returns the post-state of the database together
with the response, so failed requests expose exactly what was (not)
persisted.
-/

namespace EnergyContracts

/-- Status choices of the `Tenancy` model (`models.py` `STATUS_CHOICES`). -/
inductive TStatus
  | future
  | active
  | moving_out
  | moved_out
deriving DecidableEq, Repr

/-- Status choices of the `TenancyAgreement` model (`models.py`). -/
inductive AStatus
  | pending
  | processing
  | processed
  | failed
deriving DecidableEq, Repr

/-- One entry of the raw `renters` array in the JSON object decoded from the
model response in `gemini.py`.  Each field is a nullable string; `none`
stands for an absent key or a JSON `null`. -/
structure RawRenter where
  first_name : Option String
  last_name : Option String
  email : Option String
  phone_number : Option String
deriving DecidableEq, Repr

/-- The raw JSON object decoded from the model's text response
(`extracted_data` in `GeminiProvider.extract_tenant_data`).  `none` stands
for an absent key or a JSON `null`; for `renters` it also covers a present
`null` value (both make the Python truthiness guard fail). -/
structure RawExtraction where
  start_date : Option String
  end_date : Option String
  monthly_rent : Option Int
  deposit : Option Int
  renters : Option (List RawRenter)
  first_name : Option String
  last_name : Option String
  email : Option String
  phone_number : Option String
deriving DecidableEq, Repr

/-- The `result` dictionary built at the end of
`GeminiProvider.extract_tenant_data` (gemini.py lines 159-174). -/
structure GeminiResult where
  start_date : Option String
  end_date : Option String
  monthly_rent : Option Int
  deposit : Option Int
  renters : List RawRenter
  first_name : Option String
  last_name : Option String
  email : Option String
  phone_number : Option String
deriving DecidableEq, Repr

/-- Python's `str.strip()`: drop whitespace from both ends (implemented
over the character list so that it evaluates by reduction). -/
def pyStrip (s : String) : String :=
  { data := ((s.data.dropWhile Char.isWhitespace).reverse.dropWhile
      Char.isWhitespace).reverse }

/-- Python's `a or b` on nullable strings: `a` wins exactly when it is
truthy, i.e. a non-empty string; `None` and `""` both fall through to `b`. -/
def pyOrStr (a b : Option String) : Option String :=
  match a with
  | some s => if s = "" then b else some s
  | none => b

/-- The fallback operand used for each backward-compatibility field in
`extract_tenant_data`:
`extracted_data.get('renters', [{}])[0].get(f) if extracted_data.get('renters') else None`.
The guard is Python truthiness of the `renters` value, so an absent key, a
`null` value and an empty list all yield `None`; otherwise the first
renter's field is read. -/
def firstRenterField (renters : Option (List RawRenter)) (f : RawRenter → Option String) :
    Option String :=
  match renters with
  | some (r :: _) => f r
  | _ => none

/-- Result assembly of `GeminiProvider.extract_tenant_data` (gemini.py
lines 159-174): tenancy fields and the renters list are passed through
(`renters` defaulting to `[]`), and each backward-compatibility top-level
field is `extracted_data.get(f) or <first renter fallback>`. -/
def extract_tenant_data (d : RawExtraction) : GeminiResult :=
  { start_date := d.start_date
    end_date := d.end_date
    monthly_rent := d.monthly_rent
    deposit := d.deposit
    renters := d.renters.getD []
    first_name := pyOrStr d.first_name (firstRenterField d.renters RawRenter.first_name)
    last_name := pyOrStr d.last_name (firstRenterField d.renters RawRenter.last_name)
    email := pyOrStr d.email (firstRenterField d.renters RawRenter.email)
    phone_number := pyOrStr d.phone_number (firstRenterField d.renters RawRenter.phone_number) }

/-! ### Date-ordering validators (schemas.py, models.py)

Each Pydantic schema has a `validate_dates` model validator raising
`End date must be after start date` when both dates are present and
`end_date <= start_date`.  A Python `date` object is always truthy, so the
`if self.end_date and self.start_date` guards test presence (not-`None`).
Each function below returns `true` exactly when the corresponding validator
raises. -/

/-- `TenancyExtractedSchema.validate_dates` (schemas.py 129-134): both dates
optional. -/
def tenancyExtractedDatesInvalid (start_date end_date : Option Nat) : Bool :=
  match end_date, start_date with
  | some e, some s => e ≤ s
  | _, _ => false

/-- `TenancyConfirmSchema.validate_dates` (schemas.py 156-161): `start_date`
required, `end_date` optional. -/
def tenancyConfirmDatesInvalid (start_date : Nat) (end_date : Option Nat) : Bool :=
  match end_date with
  | some e => e ≤ start_date
  | none => false

/-- `TenancyCreateSchema.validate_dates` (schemas.py 314-319): `start_date`
required, `end_date` optional. -/
def tenancyCreateDatesInvalid (start_date : Nat) (end_date : Option Nat) : Bool :=
  match end_date with
  | some e => e ≤ start_date
  | none => false

/-- `TenancyUpdateSchema.validate_dates` (schemas.py 338-343): both dates
optional. -/
def tenancyUpdateDatesInvalid (start_date end_date : Option Nat) : Bool :=
  match end_date, start_date with
  | some e, some s => e ≤ s
  | _, _ => false

/-! ### Persisted data model (models.py) -/

/-- The custom `User` model (models.py), restricted to the fields the
modelled operations read. -/
structure User where
  id : Nat
  email : String
  first_name : String
  last_name : String
  is_active : Bool
  is_superuser : Bool
  role : String
deriving DecidableEq, Repr

/-- `User.is_landlord` (models.py). -/
def User.is_landlord (u : User) : Bool :=
  u.role == "landlord"

/-- `User.is_admin` (models.py). -/
def User.is_admin (u : User) : Bool :=
  u.role == "admin" || u.is_superuser

/-- `User.is_tenant` (models.py). -/
def User.is_tenant (u : User) : Bool :=
  u.role == "tenant"

/-- The `Household` model (models.py), restricted to the fields the modelled
operations read. -/
structure Household where
  id : Nat
  landlord : Nat
deriving DecidableEq, Repr

/-- The `TenancyAgreement` model (models.py 187-216).  `file` is an opaque
handle for the stored upload; `extracted_data` is the JSON blob produced by
the provider (`null` until populated). -/
structure TenancyAgreement where
  id : Nat
  household : Nat
  file : Nat
  extracted_data : Option GeminiResult
  status : AStatus
deriving DecidableEq, Repr

/-- The `Tenancy` model (models.py 227-313), restricted to the fields the
modelled operations read.  `proof_document` holds the file handle of the
originating tenancy agreement, when linked. -/
structure Tenancy where
  id : Nat
  household : Nat
  name : String
  status : TStatus
  start_date : Nat
  end_date : Option Nat
  monthly_rent : Int
  deposit : Int
  proof_document : Option Nat
deriving DecidableEq, Repr

/-- The `Renter` model (models.py 316-353). -/
structure Renter where
  id : Nat
  tenancy : Nat
  user : Nat
  is_primary : Bool
deriving DecidableEq, Repr

/-- The `TenantInvitation` model (models.py 356-405), restricted to the
fields the modelled operations read.  A freshly created invitation has
`accepted_at = none` (pending). -/
structure TenantInvitation where
  id : Nat
  email : String
  household : Nat
  invited_by : Nat
  accepted_at : Option Nat
deriving DecidableEq, Repr

/-- The database state: one list per table, plus a fresh-id counter standing
for the auto-increment primary keys. -/
structure DB where
  households : List Household
  users : List User
  tenancies : List Tenancy
  renters : List Renter
  agreements : List TenancyAgreement
  invitations : List TenantInvitation
  nextId : Nat
deriving DecidableEq, Repr

/-- The empty database. -/
def DB.empty : DB :=
  { households := [], users := [], tenancies := [], renters := [],
    agreements := [], invitations := [], nextId := 0 }

/-! ### Tenancy persistence: validation and the partial unique constraint

`Tenancy.Meta.constraints` declares
`UniqueConstraint(fields=['household'], condition=Q(status='active'),
name='one_active_tenancy_per_household')`, so the database rejects any
`INSERT`/`UPDATE` that would leave two `active` rows for one household
(Django raises `IntegrityError`; the statement leaves the table unchanged).
`Tenancy.save` does not call `full_clean`, so `Tenancy.objects.create` and
plain `save()` are guarded only by this constraint, whereas
`TenancyViewSet.create`/`update` call `full_clean` first. -/

/-- The check of the `one_active_tenancy_per_household` condition performed
before a write of row `t`: is there another `active` row of the same
household (a row with a different primary key)? -/
def hasOtherActive (ts : List Tenancy) (t : Tenancy) : Bool :=
  ts.any fun u => u.household == t.household && u.status == TStatus.active && u.id != t.id

/-- `INSERT` of a tenancy row, enforcing the partial unique constraint: an
`active` row is rejected when the household already has an `active` row. -/
def dbInsertTenancy (db : DB) (t : Tenancy) : Except String DB :=
  if t.status == TStatus.active && hasOtherActive db.tenancies t then
    .error "IntegrityError: one_active_tenancy_per_household"
  else
    .ok { db with tenancies := db.tenancies ++ [t] }

/-- `UPDATE` of a tenancy row (matched by primary key), enforcing the
partial unique constraint. -/
def dbUpdateTenancy (db : DB) (t : Tenancy) : Except String DB :=
  if t.status == TStatus.active && hasOtherActive db.tenancies t then
    .error "IntegrityError: one_active_tenancy_per_household"
  else
    .ok { db with tenancies := db.tenancies.map fun u => if u.id == t.id then t else u }

/-- Validation errors raised by `Tenancy.clean` (models.py 295-313). -/
inductive CleanError
  | dateOrder
  | activeConflict
deriving DecidableEq, Repr

/-- `Tenancy.clean` (models.py 295-313): first the date-ordering check, then
the single-active-tenancy check against the other rows of the table
(`exclude(pk=self.pk)`). -/
def tenancyClean (ts : List Tenancy) (t : Tenancy) : Option CleanError :=
  match t.end_date with
  | some e =>
      if e ≤ t.start_date then some .dateOrder
      else if t.status == TStatus.active && hasOtherActive ts t then some .activeConflict
      else none
  | none =>
      if t.status == TStatus.active && hasOtherActive ts t then some .activeConflict
      else none

/-- `Renter.objects.create` as executed through `Renter.save`
(models.py 345-353): when the new renter is primary, every other primary
renter of the same tenancy is first demoted by a queryset update, then the
new row is inserted. -/
def renterCreate (db : DB) (tenancy user : Nat) (is_primary : Bool) : DB × Renter :=
  let demoted :=
    if is_primary then
      db.renters.map fun x =>
        if x.tenancy == tenancy && x.is_primary then { x with is_primary := false } else x
    else db.renters
  let r : Renter := { id := db.nextId, tenancy := tenancy, user := user, is_primary := is_primary }
  ({ db with renters := demoted ++ [r], nextId := db.nextId + 1 }, r)

/-! ### Request payloads and full schema validation (schemas.py)

Pydantic raises one `ValidationError` for any failing field; the validators
below return `none` in that case and otherwise the validated (possibly
normalised) payload.  Email-format checking (`EmailStr`) and phone-format
patterns are not modelled; emails are opaque strings here. -/

/-- Request body of `POST onboarding/tenancy/confirm/`
(`TenancyConfirmSchema`, schemas.py 140-164). -/
structure ConfirmReq where
  tenancy_agreement_id : Nat
  tenancy_name : String
  start_date : Nat
  end_date : Option Nat
  monthly_rent : Int
  deposit : Int
deriving DecidableEq, Repr

/-- `TenancyConfirmSchema` validation: `tenancy_agreement_id` must be
positive, `tenancy_name` non-blank (and is stripped), amounts non-negative,
and `end_date` strictly after `start_date` when present. -/
def tenancyConfirmValidate (r : ConfirmReq) : Option ConfirmReq :=
  if r.tenancy_agreement_id = 0 then none
  else if pyStrip r.tenancy_name = "" then none
  else if r.monthly_rent < 0 then none
  else if r.deposit < 0 then none
  else if tenancyConfirmDatesInvalid r.start_date r.end_date then none
  else some { r with tenancy_name := pyStrip r.tenancy_name }

/-- Validation of an optional name field (`validate_names` in
`RenterSchema`/`AddRenterSchema`): a provided blank name is an error,
otherwise the name is stripped. -/
def optNameValidate (v : Option String) : Option (Option String) :=
  match v with
  | none => some none
  | some s => if pyStrip s = "" then none else some (some (pyStrip s))

/-- Renter entry of a tenancy-create or add-renter request (`RenterSchema` /
`AddRenterSchema`, schemas.py). -/
structure RenterPayload where
  email : String
  first_name : Option String
  last_name : Option String
  is_primary : Bool
deriving DecidableEq, Repr

/-- `RenterSchema`/`AddRenterSchema` validation: both optional names must be
non-blank when provided, and are stripped. -/
def renterPayloadValidate (r : RenterPayload) : Option RenterPayload := do
  let f ← optNameValidate r.first_name
  let l ← optNameValidate r.last_name
  some { r with first_name := f, last_name := l }

/-- The status strings accepted by `TenancyCreateSchema.validate_status` and
`TenancyUpdateSchema.validate_status`, mapped to the `Tenancy` status. -/
def parseStatus (s : String) : Option TStatus :=
  if s = "future" then some TStatus.future
  else if s = "active" then some TStatus.active
  else if s = "moving_out" then some TStatus.moving_out
  else if s = "moved_out" then some TStatus.moved_out
  else none

/-- Request body of `POST /tenancies/` (`TenancyCreateSchema`, schemas.py
296-319). -/
structure TenancyCreateReq where
  household_id : Nat
  start_date : Nat
  end_date : Option Nat
  monthly_rent : Int
  deposit : Int
  status : String
  renters : Option (List RenterPayload)
deriving DecidableEq, Repr

/-- The validated form of `TenancyCreateSchema`: status parsed, renter names
stripped.  `renters = none` and `renters = some []` both make the creation
loop a no-op (Python truthiness of the list), so both validate to `[]`. -/
structure TenancyCreateData where
  household_id : Nat
  start_date : Nat
  end_date : Option Nat
  monthly_rent : Int
  deposit : Int
  status : TStatus
  renters : List RenterPayload
deriving DecidableEq, Repr

/-- `TenancyCreateSchema` validation. -/
def tenancyCreateValidate (r : TenancyCreateReq) : Option TenancyCreateData :=
  if r.household_id = 0 then none
  else if r.monthly_rent < 0 then none
  else if r.deposit < 0 then none
  else
    match parseStatus r.status with
    | none => none
    | some st =>
      if tenancyCreateDatesInvalid r.start_date r.end_date then none
      else
        match (r.renters.getD []).mapM renterPayloadValidate with
        | none => none
        | some rs =>
          some { household_id := r.household_id, start_date := r.start_date,
                 end_date := r.end_date, monthly_rent := r.monthly_rent,
                 deposit := r.deposit, status := st, renters := rs }

/-- Request body of `PUT /tenancies/{pk}/` (`TenancyUpdateSchema`,
schemas.py 322-343): every field optional. -/
structure TenancyUpdateReq where
  start_date : Option Nat
  end_date : Option Nat
  monthly_rent : Option Int
  deposit : Option Int
  status : Option String
deriving DecidableEq, Repr

/-- The validated form of `TenancyUpdateSchema`. -/
structure TenancyUpdateData where
  start_date : Option Nat
  end_date : Option Nat
  monthly_rent : Option Int
  deposit : Option Int
  status : Option TStatus
deriving DecidableEq, Repr

/-- `TenancyUpdateSchema` validation. -/
def tenancyUpdateValidate (r : TenancyUpdateReq) : Option TenancyUpdateData :=
  if (r.monthly_rent.getD 0) < 0 then none
  else if (r.deposit.getD 0) < 0 then none
  else
    match r.status with
    | some s =>
      match parseStatus s with
      | none => none
      | some st =>
        if tenancyUpdateDatesInvalid r.start_date r.end_date then none
        else some { start_date := r.start_date, end_date := r.end_date,
                    monthly_rent := r.monthly_rent, deposit := r.deposit,
                    status := some st }
    | none =>
      if tenancyUpdateDatesInvalid r.start_date r.end_date then none
      else some { start_date := r.start_date, end_date := r.end_date,
                  monthly_rent := r.monthly_rent, deposit := r.deposit,
                  status := none }

/-! ### Onboarding operations (views/onboarding.py)

Every operation takes the calling user as a value (`request.user`) and
returns the post-state of the database together with the response.  The
outcome of the external AI call is a parameter: `.ok raw` stands for a
response that decoded to the JSON object `raw`, `.error msg` for any
exception out of `GeminiProvider.extract_tenant_data` (missing key,
unsupported type, network failure, invalid JSON, ...). -/

/-- An uploaded file: `ext` is the already-lowercased extension that
`os.path.splitext(name)[1].lower()` yields, `size` the byte count. -/
structure UploadedFile where
  name : String
  ext : String
  size : Nat
deriving DecidableEq, Repr

/-- `allowed_extensions` in `upload_tenancy` (onboarding.py 190). -/
def allowed_extensions : List String :=
  [".pdf", ".jpg", ".jpeg", ".png", ".xlsx", ".xls", ".docx", ".doc"]

/-- `MAX_UPLOAD_SIZE` default (onboarding.py 182). -/
def MAX_UPLOAD_SIZE : Nat := 10485760

/-- Failure modes of `upload_tenancy`. -/
inductive UploadError
  | forbidden
  | validation
  | notFound
  | noFile
  | tooLarge
  | badType
deriving DecidableEq, Repr

/-- The `TenancyAgreement.objects.create(...)` call of `upload_tenancy`
(onboarding.py 198-203): the record is created with
`status='processing'` (source comment: `Set to processing immediately`)
and no extracted data; `file` is a fresh handle for the stored upload. -/
def uploadCreateRecord (db : DB) (household : Household) : TenancyAgreement :=
  { id := db.nextId, household := household.id, file := db.nextId,
    extracted_data := none, status := AStatus.processing }

/-- Replace an agreement row (matched by primary key). -/
def dbSetAgreement (db : DB) (a : TenancyAgreement) : DB :=
  { db with agreements := db.agreements.map fun x => if x.id == a.id then a else x }

/-- `OnboardingViewSet.upload_tenancy` (onboarding.py 136-239): permission
check (`IsLandlordOrAdmin`), schema validation, household ownership, file
presence/size/extension checks, creation of the agreement record, then the
inline extraction attempt whose failure marks the record `failed` (the
upload itself still returns 201 with the record). -/
def upload_tenancy (db : DB) (caller : User) (household_id : Nat)
    (file : Option UploadedFile) (response : Except String RawExtraction) :
    DB × Except UploadError TenancyAgreement :=
  if !(caller.is_landlord || caller.is_admin) then (db, .error .forbidden)
  else if household_id = 0 then (db, .error .validation)
  else
    match db.households.find? fun h => h.id == household_id && h.landlord == caller.id with
    | none =>
        if db.households.any fun h => h.id == household_id then (db, .error .forbidden)
        else (db, .error .notFound)
    | some household =>
      match file with
      | none => (db, .error .noFile)
      | some f =>
        if MAX_UPLOAD_SIZE < f.size then (db, .error .tooLarge)
        else if !(allowed_extensions.contains f.ext) then (db, .error .badType)
        else
          let record := uploadCreateRecord db household
          let db1 := { db with agreements := db.agreements ++ [record],
                               nextId := db.nextId + 1 }
          match response with
          | .ok raw =>
            let done := { record with
              extracted_data := some (extract_tenant_data raw),
              status := AStatus.processed }
            (dbSetAgreement db1 done, .ok done)
          | .error _ =>
            let done := { record with status := AStatus.failed }
            (dbSetAgreement db1 done, .ok done)

/-- Failure modes of `process_tenancy`. -/
inductive ProcessError
  | forbidden
  | notFound
  | extractionFailed
deriving DecidableEq, Repr

/-- `OnboardingViewSet.process_tenancy` (onboarding.py 241-305): an already
`processed` record is returned unchanged; otherwise the record is first
saved as `processing`, then the extraction outcome moves it to `processed`
(with data) or `failed`. -/
def process_tenancy (db : DB) (caller : User) (pk : Nat)
    (response : Except String RawExtraction) :
    DB × Except ProcessError TenancyAgreement :=
  if !(caller.is_landlord || caller.is_admin) then (db, .error .forbidden)
  else
    match db.agreements.find? fun a => a.id == pk &&
        db.households.any fun h => h.id == a.household && h.landlord == caller.id with
    | none => (db, .error .notFound)
    | some ag =>
      if ag.status == AStatus.processed then (db, .ok ag)
      else
        let ag1 := { ag with status := AStatus.processing }
        let db1 := dbSetAgreement db ag1
        match response with
        | .ok raw =>
          let ag2 := { ag1 with
            extracted_data := some (extract_tenant_data raw),
            status := AStatus.processed }
          (dbSetAgreement db1 ag2, .ok ag2)
        | .error _ =>
          let ag2 := { ag1 with status := AStatus.failed }
          (dbSetAgreement db1 ag2, .error .extractionFailed)

/-- Failure modes of `confirm_tenancy`.  `notFound` is the `Http404` raised
by `get_object_or_404` (surfaced through the view's generic handler), and
`integrity` the `IntegrityError` of the partial unique constraint raised
from `save()`/`create()` (likewise surfaced as a 500 response). -/
inductive ConfirmError
  | forbidden
  | validation
  | notFound
  | integrity
deriving DecidableEq, Repr

/-- The `get_object_or_404(TenancyAgreement, id=..., household__landlord=
request.user, status='processed')` lookup of `confirm_tenancy`
(onboarding.py 332-337). -/
def confirmFindAgreement (db : DB) (caller : User) (aid : Nat) :
    Option TenancyAgreement :=
  db.agreements.find? fun a => a.id == aid &&
    (db.households.any fun h => h.id == a.household && h.landlord == caller.id) &&
    a.status == AStatus.processed

/-- The `UPDATE` branch of `confirm_tenancy` (onboarding.py 345-356): the
existing tenancy's name, dates, rent and deposit are overwritten and the
status recomputed as
`'active' if confirm_data.start_date <= timezone.now().date() else 'future'`. -/
def confirmUpdatedTenancy (existing : Tenancy) (d : ConfirmReq) (today : Nat) : Tenancy :=
  { existing with
    name := d.tenancy_name
    start_date := d.start_date
    end_date := d.end_date
    monthly_rent := d.monthly_rent
    deposit := d.deposit
    status := if d.start_date ≤ today then TStatus.active else TStatus.future }

/-- The `CREATE` branch of `confirm_tenancy` (onboarding.py 357-369): a new
tenancy on the agreement's household, linked to the agreement's file as
proof document, with the same status derivation. -/
def confirmNewTenancy (db : DB) (d : ConfirmReq) (ag : TenancyAgreement)
    (today : Nat) : Tenancy :=
  { id := db.nextId
    household := ag.household
    name := d.tenancy_name
    status := if d.start_date ≤ today then TStatus.active else TStatus.future
    start_date := d.start_date
    end_date := d.end_date
    monthly_rent := d.monthly_rent
    deposit := d.deposit
    proof_document := some ag.file }

/-- `OnboardingViewSet.confirm_tenancy` (onboarding.py 307-386).  The
idempotency lookup `Tenancy.objects.filter(proof_document=
tenancy_agreement.file).first()` is modelled as the first matching row in
table order; Django orders by `-start_date`, which agrees whenever at most
one row matches (the only situation the confirm flow itself produces). -/
def confirm_tenancy (db : DB) (caller : User) (today : Nat) (req : ConfirmReq) :
    DB × Except ConfirmError Tenancy :=
  if !(caller.is_landlord || caller.is_admin) then (db, .error .forbidden)
  else
    match tenancyConfirmValidate req with
    | none => (db, .error .validation)
    | some d =>
      match confirmFindAgreement db caller d.tenancy_agreement_id with
      | none => (db, .error .notFound)
      | some ag =>
        match db.tenancies.find? fun t => t.proof_document == some ag.file with
        | some existing =>
          match dbUpdateTenancy db (confirmUpdatedTenancy existing d today) with
          | .ok db' => (db', .ok (confirmUpdatedTenancy existing d today))
          | .error _ => (db, .error .integrity)
        | none =>
          match dbInsertTenancy db (confirmNewTenancy db d ag today) with
          | .ok db' => ({ db' with nextId := db.nextId + 1 },
                        .ok (confirmNewTenancy db d ag today))
          | .error _ => (db, .error .integrity)

/-! ### Tenancy operations (views/tenancies.py) -/

/-- The role-filtered queryset of `TenancyViewSet.get_queryset`: admins see
every tenancy, landlords those of their own households, everyone else the
tenancies they are a renter of. -/
def tenancyVisible (db : DB) (caller : User) (t : Tenancy) : Bool :=
  if caller.is_admin then true
  else if caller.is_landlord then
    db.households.any fun h => h.id == t.household && h.landlord == caller.id
  else
    db.renters.any fun r => r.tenancy == t.id && r.user == caller.id

/-- `self.get_object()`: lookup by primary key inside the role-filtered
queryset (raises `Http404` when invisible or absent). -/
def getTenancyObject (db : DB) (caller : User) (pk : Nat) : Option Tenancy :=
  db.tenancies.find? fun t => t.id == pk && tenancyVisible db caller t

/-- The per-action permission check
`not request.user.is_admin() and tenancy.household.landlord != request.user`. -/
def canManage (db : DB) (caller : User) (t : Tenancy) : Bool :=
  caller.is_admin ||
    db.households.any fun h => h.id == t.household && h.landlord == caller.id

/-- `TenancyViewSet._add_renter_to_tenancy` (tenancies.py 486-533).  When a
user with the email exists and is already attached, a `ValueError` is
raised (no write).  When the user exists unattached, a `Renter` row is
created.  When no user exists, an inactive `role='tenant'` placeholder user
is created, attached as a `Renter`, and a pending `TenantInvitation` for
the tenancy's household is created (the invitation email send is a side
effect outside the database model). -/
def add_renter_to_tenancy (db : DB) (tenancy : Tenancy) (email : String)
    (first_name last_name : Option String) (is_primary : Bool) (invited_by : Nat) :
    DB × Except String Renter :=
  match db.users.find? fun u => u.email == email with
  | some user =>
    if db.renters.any fun r => r.tenancy == tenancy.id && r.user == user.id then
      (db, .error "is already a renter in this tenancy")
    else
      let created := renterCreate db tenancy.id user.id is_primary
      (created.1, .ok created.2)
  | none =>
    let u : User :=
      { id := db.nextId
        email := email
        first_name := first_name.getD ""
        last_name := last_name.getD ""
        is_active := false
        is_superuser := false
        role := "tenant" }
    let db1 := { db with users := db.users ++ [u], nextId := db.nextId + 1 }
    let created := renterCreate db1 tenancy.id u.id is_primary
    let db2 := created.1
    let inv : TenantInvitation :=
      { id := db2.nextId
        email := email
        household := tenancy.household
        invited_by := invited_by
        accepted_at := none }
    let db3 := { db2 with invitations := db2.invitations ++ [inv], nextId := db2.nextId + 1 }
    (db3, .ok created.2)

/-- Failure modes of `TenancyViewSet.add_renter`. -/
inductive AddRenterError
  | notFound
  | forbidden
  | validation
  | alreadyRenter
deriving DecidableEq, Repr

/-- `TenancyViewSet.add_renter` (tenancies.py 237-280): object lookup,
permission check, schema validation, then `_add_renter_to_tenancy`; the
`ValueError` for an already-attached user becomes a 400 response. -/
def add_renter (db : DB) (caller : User) (pk : Nat) (req : RenterPayload) :
    DB × Except AddRenterError Renter :=
  match getTenancyObject db caller pk with
  | none => (db, .error .notFound)
  | some tenancy =>
    if !canManage db caller tenancy then (db, .error .forbidden)
    else
      match renterPayloadValidate req with
      | none => (db, .error .validation)
      | some r =>
        match add_renter_to_tenancy db tenancy r.email r.first_name r.last_name
            r.is_primary caller.id with
        | (db', .ok renter) => (db', .ok renter)
        | (_, .error _) => (db, .error .alreadyRenter)

/-- Failure modes of `TenancyViewSet.create`. -/
inductive CreateError
  | validation
  | notFound
  | forbidden
  | cleanInvalid (e : CleanError)
  | integrity
  | renterValue
deriving DecidableEq, Repr

/-- The renter-creation loop at the end of `TenancyViewSet.create`
(tenancies.py 124-133).  A `ValueError` from `_add_renter_to_tenancy` is
caught by the view's generic handler and converted into a 400 response, but
the exception never escapes the `@transaction.atomic` decorator, so the
writes made so far (tenancy and earlier renters) stay committed. -/
def createRentersLoop (db : DB) (t : Tenancy) (invited_by : Nat) :
    List RenterPayload → DB × Except CreateError Tenancy
  | [] => (db, .ok t)
  | r :: rest =>
    match add_renter_to_tenancy db t r.email r.first_name r.last_name
        r.is_primary invited_by with
    | (db', .ok _) => createRentersLoop db' t invited_by rest
    | (_, .error _) => (db, .error .renterValue)

/-- `TenancyViewSet.create` (tenancies.py 83-150): schema validation,
household lookup, permission check, `full_clean` (date ordering and the
single-active check), save, then the renter loop.  The model name defaults
to `Unnamed Tenancy` since the view passes none. -/
def tenancy_create (db : DB) (caller : User) (req : TenancyCreateReq) :
    DB × Except CreateError Tenancy :=
  match tenancyCreateValidate req with
  | none => (db, .error .validation)
  | some d =>
    match db.households.find? fun h => h.id == d.household_id with
    | none => (db, .error .notFound)
    | some household =>
      if !(caller.is_admin || household.landlord == caller.id) then
        (db, .error .forbidden)
      else
        let t : Tenancy :=
          { id := db.nextId
            household := household.id
            name := "Unnamed Tenancy"
            status := d.status
            start_date := d.start_date
            end_date := d.end_date
            monthly_rent := d.monthly_rent
            deposit := d.deposit
            proof_document := none }
        match tenancyClean db.tenancies t with
        | some e => (db, .error (.cleanInvalid e))
        | none =>
          match dbInsertTenancy db t with
          | .error _ => (db, .error .integrity)
          | .ok db1 =>
            createRentersLoop { db1 with nextId := db.nextId + 1 } t caller.id d.renters

/-- The field application of `TenancyViewSet.update` (tenancies.py
177-187): each provided field overwrites the stored one; absent fields are
kept. -/
def applyTenancyUpdate (tenancy : Tenancy) (d : TenancyUpdateData) : Tenancy :=
  { tenancy with
    start_date := d.start_date.getD tenancy.start_date
    end_date := match d.end_date with
                | some e => some e
                | none => tenancy.end_date
    monthly_rent := d.monthly_rent.getD tenancy.monthly_rent
    deposit := d.deposit.getD tenancy.deposit
    status := d.status.getD tenancy.status }

/-- Failure modes of `TenancyViewSet.update`. -/
inductive UpdateError
  | notFound
  | forbidden
  | validation
  | cleanInvalid (e : CleanError)
  | integrity
deriving DecidableEq, Repr

/-- `TenancyViewSet.update` (tenancies.py 161-215): object lookup,
permission check, schema validation, application of the provided fields,
`full_clean`, save. -/
def tenancy_update (db : DB) (caller : User) (pk : Nat) (req : TenancyUpdateReq) :
    DB × Except UpdateError Tenancy :=
  match getTenancyObject db caller pk with
  | none => (db, .error .notFound)
  | some tenancy =>
    if !canManage db caller tenancy then (db, .error .forbidden)
    else
      match tenancyUpdateValidate req with
      | none => (db, .error .validation)
      | some d =>
        match tenancyClean db.tenancies (applyTenancyUpdate tenancy d) with
        | some e => (db, .error (.cleanInvalid e))
        | none =>
          match dbUpdateTenancy db (applyTenancyUpdate tenancy d) with
          | .ok db' => (db', .ok (applyTenancyUpdate tenancy d))
          | .error _ => (db, .error .integrity)

/-- Failure modes of `TenancyViewSet.activate`. -/
inductive ActivateError
  | notFound
  | forbidden
  | conflict
deriving DecidableEq, Repr

/-- `TenancyViewSet.activate` (tenancies.py 303-336): object lookup,
permission check, explicit single-active conflict check
(`filter(household=..., status='active').exclude(pk=...)`), then save. -/
def tenancy_activate (db : DB) (caller : User) (pk : Nat) :
    DB × Except ActivateError Tenancy :=
  match getTenancyObject db caller pk with
  | none => (db, .error .notFound)
  | some tenancy =>
    if !canManage db caller tenancy then (db, .error .forbidden)
    else if hasOtherActive db.tenancies tenancy then (db, .error .conflict)
    else
      let upd := { tenancy with status := TStatus.active }
      match dbUpdateTenancy db upd with
      | .ok db' => (db', .ok upd)
      | .error _ => (db, .error .conflict)

/-- Failure modes of the remaining tenancy actions. -/
inductive TenancyActionError
  | notFound
  | forbidden
  | validation
deriving DecidableEq, Repr

/-- `TenancyViewSet.start_moveout` (tenancies.py 338-369): sets
`moving_out` and the end date; `StartMoveoutSchema` rejects an end date in
the past. -/
def start_moveout (db : DB) (caller : User) (today pk end_date : Nat) :
    DB × Except TenancyActionError Tenancy :=
  match getTenancyObject db caller pk with
  | none => (db, .error .notFound)
  | some tenancy =>
    if !canManage db caller tenancy then (db, .error .forbidden)
    else if end_date < today then (db, .error .validation)
    else
      let upd := { tenancy with status := TStatus.moving_out, end_date := some end_date }
      match dbUpdateTenancy db upd with
      | .ok db' => (db', .ok upd)
      | .error _ => (db, .error .validation)

/-- `TenancyViewSet.mark_moved_out` (tenancies.py 371-391); the `destroy`
action (tenancies.py 217-235) performs the same write (logical deletion). -/
def mark_moved_out (db : DB) (caller : User) (pk : Nat) :
    DB × Except TenancyActionError Tenancy :=
  match getTenancyObject db caller pk with
  | none => (db, .error .notFound)
  | some tenancy =>
    if !canManage db caller tenancy then (db, .error .forbidden)
    else
      let upd := { tenancy with status := TStatus.moved_out }
      match dbUpdateTenancy db upd with
      | .ok db' => (db', .ok upd)
      | .error _ => (db, .error .validation)

/-- `TenancyViewSet.upload_proof` (tenancies.py 393-422): attaches a proof
document to the tenancy; the status is untouched. -/
def upload_proof (db : DB) (caller : User) (pk file : Nat) :
    DB × Except TenancyActionError Tenancy :=
  match getTenancyObject db caller pk with
  | none => (db, .error .notFound)
  | some tenancy =>
    if !canManage db caller tenancy then (db, .error .forbidden)
    else
      let upd := { tenancy with proof_document := some file }
      match dbUpdateTenancy db upd with
      | .ok db' => (db', .ok upd)
      | .error _ => (db, .error .validation)

/-- `OnboardingViewSet.create_household` (onboarding.py 45-85), reduced to
the fields of the model the other operations read. -/
def create_household (db : DB) (caller : User) : DB × Except Unit Household :=
  if !(caller.is_landlord || caller.is_admin) then (db, .error ())
  else
    let h : Household := { id := db.nextId, landlord := caller.id }
    ({ db with households := db.households ++ [h], nextId := db.nextId + 1 }, .ok h)

/-! ### File converter (ai_services/utils/file_converter.py)

The filesystem is a flat map from paths to byte sizes; the external
conversion tools are oracles describing what the tool run did. -/

/-- A flat filesystem: a partial map from paths to byte sizes. -/
structure FS where
  lookup : String → Option Nat

/-- `os.path.exists`. -/
def FS.pathExists (fs : FS) (p : String) : Bool :=
  (fs.lookup p).isSome

/-- `os.path.getsize` (0 when the path is absent). -/
def FS.size (fs : FS) (p : String) : Nat :=
  (fs.lookup p).getD 0

/-- Write (create or overwrite) a file. -/
def FS.write (fs : FS) (p : String) (n : Nat) : FS :=
  { lookup := fun q => if q = p then some n else fs.lookup q }

/-- `os.remove`. -/
def FS.remove (fs : FS) (p : String) : FS :=
  { lookup := fun q => if q = p then none else fs.lookup q }

/-- The `FileConverter` instance state: the tracked temporary files
(`self.temp_files`). -/
structure FileConverter where
  temp_files : List String
deriving DecidableEq, Repr

/-- `REQUIRES_CONVERSION` (file_converter.py 17-24). -/
def REQUIRES_CONVERSION : List String :=
  [".docx", ".doc", ".jpg", ".jpeg", ".png", ".webp"]

/-- What the external conversion attempt did.  `timeout`, `exitNonZero` and
`missingOutput` arise on the LibreOffice (docx/doc) path; `produced n`
stands for a tool run that wrote the output file with `n` bytes, and
`raised` for any other exception inside the conversion body. -/
inductive ConvAttempt
  | timeout
  | exitNonZero
  | missingOutput
  | produced (size : Nat)
  | raised
deriving DecidableEq, Repr

/-- `FileConverter._convert_docx_to_pdf` (file_converter.py 88-148): a
subprocess timeout, a non-zero exit code, a missing LibreOffice output file
or an exception all yield `False`; otherwise the produced file is renamed
onto `output_path` and `True` is returned. -/
def convertDocxToPdf (fs : FS) (output_path : String) (attempt : ConvAttempt) :
    Bool × FS :=
  match attempt with
  | .timeout => (false, fs)
  | .exitNonZero => (false, fs)
  | .missingOutput => (false, fs)
  | .raised => (false, fs)
  | .produced n => (true, fs.write output_path n)

/-- `FileConverter._convert_image_to_pdf` (file_converter.py 150-183): the
image is flattened and saved onto `output_path`; any exception yields
`False`. -/
def convertImageToPdf (fs : FS) (output_path : String) (attempt : ConvAttempt) :
    Bool × FS :=
  match attempt with
  | .produced n => (true, fs.write output_path n)
  | _ => (false, fs)

/-- `FileConverter._cleanup_file` (file_converter.py 185-194): when the path
exists it is removed from disk and (its first occurrence) from the tracked
list; a non-existing path leaves both untouched. -/
def cleanupFile (fs : FS) (fc : FileConverter) (p : String) : FS × FileConverter :=
  if fs.pathExists p then (fs.remove p, { temp_files := fc.temp_files.erase p })
  else (fs, fc)

/-- `FileConverter.convert_to_pdf` (file_converter.py 34-86).  `ext` is the
lowercased suffix of `input_path`, `freshTemp` the path allocated by
`NamedTemporaryFile(suffix='.pdf', delete=False)` (which creates it empty
on disk).  Success requires the converter to report success and the output
to exist and be non-empty; every other outcome (including an exception,
whose handler performs the same cleanup as the failure branch) deletes the
partial output and returns no path.  The `else` arm at line 71-73 is
unreachable because `REQUIRES_CONVERSION` only holds docx/doc and image
extensions. -/
def convert_to_pdf (fs : FS) (fc : FileConverter) (input_path ext freshTemp : String)
    (attempt : ConvAttempt) : FS × FileConverter × Option String :=
  if !fs.pathExists input_path then (fs, fc, none)
  else if ext = ".pdf" then (fs, fc, some input_path)
  else if !REQUIRES_CONVERSION.contains ext then (fs, fc, some input_path)
  else
    let fs1 := fs.write freshTemp 0
    let fc1 : FileConverter := { temp_files := fc.temp_files ++ [freshTemp] }
    let run :=
      if ext = ".docx" || ext = ".doc" then convertDocxToPdf fs1 freshTemp attempt
      else convertImageToPdf fs1 freshTemp attempt
    let success := run.1
    let fs2 := run.2
    if success && fs2.pathExists freshTemp && decide (0 < fs2.size freshTemp) then
      (fs2, fc1, some freshTemp)
    else
      let cleaned := cleanupFile fs2 fc1 freshTemp
      (cleaned.1, cleaned.2, none)

/-! ### The operations as a transition system

`Op` collects every modelled request that writes to the database;
`applyOp` is the database state after the request, whatever the response
was; `Reach` is the reflexive-transitive closure. -/

/-- One modelled API request. -/
inductive Op
  | createHousehold (caller : User)
  | uploadAgreement (caller : User) (household_id : Nat) (file : Option UploadedFile)
      (response : Except String RawExtraction)
  | processAgreement (caller : User) (pk : Nat) (response : Except String RawExtraction)
  | confirmTenancy (caller : User) (today : Nat) (req : ConfirmReq)
  | createTenancy (caller : User) (req : TenancyCreateReq)
  | updateTenancy (caller : User) (pk : Nat) (req : TenancyUpdateReq)
  | activateTenancy (caller : User) (pk : Nat)
  | startMoveoutOp (caller : User) (today pk end_date : Nat)
  | markMovedOutOp (caller : User) (pk : Nat)
  | uploadProofOp (caller : User) (pk file : Nat)
  | addRenterOp (caller : User) (pk : Nat) (req : RenterPayload)

/-- The database state after a request. -/
def applyOp (db : DB) : Op → DB
  | .createHousehold c => (create_household db c).1
  | .uploadAgreement c hid f resp => (upload_tenancy db c hid f resp).1
  | .processAgreement c pk resp => (process_tenancy db c pk resp).1
  | .confirmTenancy c today req => (confirm_tenancy db c today req).1
  | .createTenancy c req => (tenancy_create db c req).1
  | .updateTenancy c pk req => (tenancy_update db c pk req).1
  | .activateTenancy c pk => (tenancy_activate db c pk).1
  | .startMoveoutOp c today pk e => (start_moveout db c today pk e).1
  | .markMovedOutOp c pk => (mark_moved_out db c pk).1
  | .uploadProofOp c pk f => (upload_proof db c pk f).1
  | .addRenterOp c pk req => (add_renter db c pk req).1

/-- Reachability of one database state from another through the modelled
requests. -/
inductive Reach : DB → DB → Prop
  | refl (db : DB) : Reach db db
  | step {db db' : DB} (op : Op) : Reach db db' → Reach db (applyOp db' op)

/-! ## Theorems -/

/-- C8: for every pair of dates with `end_date ≤ start_date` (equal or
reversed), the input is rejected wherever both dates are present — by the
extraction schema's date validator, the confirm schema (validator and full
validation), tenancy create/update (validators, full validation and
`Tenancy.clean`) — and every pair with `end_date` strictly after
`start_date` passes this check. -/
theorem claim_C8_date_ordering (s e : Nat) :
    (e ≤ s →
      tenancyExtractedDatesInvalid (some s) (some e) = true ∧
      tenancyConfirmDatesInvalid s (some e) = true ∧
      tenancyCreateDatesInvalid s (some e) = true ∧
      tenancyUpdateDatesInvalid (some s) (some e) = true ∧
      (∀ (ts : List Tenancy) (t : Tenancy), t.start_date = s → t.end_date = some e →
        tenancyClean ts t = some CleanError.dateOrder) ∧
      (∀ r : ConfirmReq, r.start_date = s → r.end_date = some e →
        tenancyConfirmValidate r = none) ∧
      (∀ r : TenancyCreateReq, r.start_date = s → r.end_date = some e →
        tenancyCreateValidate r = none) ∧
      (∀ r : TenancyUpdateReq, r.start_date = some s → r.end_date = some e →
        tenancyUpdateValidate r = none)) ∧
    (s < e →
      tenancyExtractedDatesInvalid (some s) (some e) = false ∧
      tenancyConfirmDatesInvalid s (some e) = false ∧
      tenancyCreateDatesInvalid s (some e) = false ∧
      tenancyUpdateDatesInvalid (some s) (some e) = false ∧
      (∀ (ts : List Tenancy) (t : Tenancy), t.start_date = s → t.end_date = some e →
        tenancyClean ts t ≠ some CleanError.dateOrder)) := by
  constructor
  · intro hle
    refine ⟨by simp [tenancyExtractedDatesInvalid, hle],
            by simp [tenancyConfirmDatesInvalid, hle],
            by simp [tenancyCreateDatesInvalid, hle],
            by simp [tenancyUpdateDatesInvalid, hle], ?_, ?_, ?_, ?_⟩
    · intro ts t hs he
      simp [tenancyClean, he, hs, hle]
    · intro r hs he
      simp only [tenancyConfirmValidate, tenancyConfirmDatesInvalid, hs, he]
      split
      · rfl
      · split
        · rfl
        · split
          · rfl
          · split
            · rfl
            · simp [hle]
    · intro r hs he
      simp only [tenancyCreateValidate, tenancyCreateDatesInvalid, hs, he]
      split
      · rfl
      · split
        · rfl
        · split
          · rfl
          · split
            · rfl
            · simp [hle]
    · intro r hs he
      simp only [tenancyUpdateValidate, tenancyUpdateDatesInvalid, hs, he]
      split
      · rfl
      · split
        · rfl
        · split
          · split
            · rfl
            · simp [hle]
          · simp [hle]
  · intro hlt
    have hn : ¬ e ≤ s := Nat.not_le.mpr hlt
    refine ⟨by simp [tenancyExtractedDatesInvalid, hn],
            by simp [tenancyConfirmDatesInvalid, hn],
            by simp [tenancyCreateDatesInvalid, hn],
            by simp [tenancyUpdateDatesInvalid, hn], ?_⟩
    intro ts t hs he
    simp only [tenancyClean, he, hs]
    rw [if_neg hn]
    split <;> simp

/-- C8 witness: a concrete rejected pair (3 ≤ 5) across all validators and a
concrete accepted pair (5 < 7). -/
theorem claim_C8_witness :
    tenancyExtractedDatesInvalid (some 5) (some 3) = true ∧
    tenancyConfirmValidate
      { tenancy_agreement_id := 1, tenancy_name := "Lease", start_date := 5,
        end_date := some 3, monthly_rent := 100, deposit := 0 } = none ∧
    tenancyUpdateDatesInvalid (some 5) (some 7) = false := by
  refine ⟨((claim_C8_date_ordering 5 3).1 (by decide)).1, ?_, ?_⟩
  · exact ((claim_C8_date_ordering 5 3).1 (by decide)).2.2.2.2.2.1 _ rfl rfl
  · exact ((claim_C8_date_ordering 5 7).2 (by decide)).2.2.2.1

/-- The concrete parsed response used to refute C9 as stated: the top-level
`first_name` key is present with the (falsy) value `""`, and the first
renter's first name is `"John"`. -/
def rawBackcompatExample : RawExtraction :=
  { start_date := none
    end_date := none
    monthly_rent := none
    deposit := none
    renters := some [{ first_name := some "John", last_name := some "Doe",
                       email := some "john@example.com", phone_number := none }]
    first_name := some ""
    last_name := none
    email := none
    phone_number := none }

/-- C9 counterexample: the claim says a present top-level value overrides
the renter fallback, but `extracted_data.get('first_name') or ...` tests
Python truthiness, so the present value `""` loses to the first renter's
`"John"`. -/
theorem claim_C9_counterexample :
    rawBackcompatExample.first_name = some "" ∧
    (extract_tenant_data rawBackcompatExample).first_name = some "John" ∧
    (extract_tenant_data rawBackcompatExample).first_name ≠
      rawBackcompatExample.first_name := by
  refine ⟨rfl, rfl, by decide⟩

/-- C9 (amended): each backward-compatibility top-level field of the
extraction result equals the top-level raw value when that value is present
and truthy (a non-empty string); when the top-level value is absent, null
or the empty string, it falls back to the corresponding field of the first
entry of the renters list, and is null when the renters list is absent,
null or empty. -/
theorem claim_C9_backcompat_fields (d : RawExtraction) :
    ((∀ s, d.first_name = some s → s ≠ "" → (extract_tenant_data d).first_name = some s) ∧
     (d.first_name = none ∨ d.first_name = some "" →
       (∀ r rest, d.renters = some (r :: rest) →
          (extract_tenant_data d).first_name = r.first_name) ∧
       (d.renters = none ∨ d.renters = some [] →
          (extract_tenant_data d).first_name = none))) ∧
    ((∀ s, d.last_name = some s → s ≠ "" → (extract_tenant_data d).last_name = some s) ∧
     (d.last_name = none ∨ d.last_name = some "" →
       (∀ r rest, d.renters = some (r :: rest) →
          (extract_tenant_data d).last_name = r.last_name) ∧
       (d.renters = none ∨ d.renters = some [] →
          (extract_tenant_data d).last_name = none))) ∧
    ((∀ s, d.email = some s → s ≠ "" → (extract_tenant_data d).email = some s) ∧
     (d.email = none ∨ d.email = some "" →
       (∀ r rest, d.renters = some (r :: rest) →
          (extract_tenant_data d).email = r.email) ∧
       (d.renters = none ∨ d.renters = some [] →
          (extract_tenant_data d).email = none))) ∧
    ((∀ s, d.phone_number = some s → s ≠ "" →
        (extract_tenant_data d).phone_number = some s) ∧
     (d.phone_number = none ∨ d.phone_number = some "" →
       (∀ r rest, d.renters = some (r :: rest) →
          (extract_tenant_data d).phone_number = r.phone_number) ∧
       (d.renters = none ∨ d.renters = some [] →
          (extract_tenant_data d).phone_number = none))) := by
  refine ⟨⟨?_, ?_⟩, ⟨?_, ?_⟩, ⟨?_, ?_⟩, ⟨?_, ?_⟩⟩ <;>
    first
    | (intro s hs hne
       simp [extract_tenant_data, pyOrStr, hs, hne])
    | (intro h
       constructor
       · intro r rest hr
         rcases h with h | h <;>
           simp [extract_tenant_data, pyOrStr, firstRenterField, h, hr]
       · intro h2
         rcases h with h | h <;> rcases h2 with h2 | h2 <;>
           simp [extract_tenant_data, pyOrStr, firstRenterField, h, h2])

/-- C9 witness: a truthy top-level value overrides; an absent one falls back
to the first renter. -/
theorem claim_C9_witness :
    (extract_tenant_data rawBackcompatExample).last_name = some "Doe" ∧
    (extract_tenant_data
      { rawBackcompatExample with first_name := some "Johnny" }).first_name =
        some "Johnny" := by
  constructor
  · exact ((claim_C9_backcompat_fields rawBackcompatExample).2.1.2 (Or.inl rfl)).1
      _ _ rfl
  · exact (claim_C9_backcompat_fields _).1.1 "Johnny" rfl (by decide)

/-! ### Filesystem lemmas for the converter -/

theorem FS.pathExists_write (fs : FS) (p : String) (n : Nat) :
    (fs.write p n).pathExists p = true := by
  simp [FS.write, FS.pathExists]

theorem FS.pathExists_remove (fs : FS) (p : String) :
    (fs.remove p).pathExists p = false := by
  simp [FS.remove, FS.pathExists]

theorem FS.size_write (fs : FS) (p : String) (n : Nat) :
    (fs.write p n).size p = n := by
  simp [FS.write, FS.size]

theorem erase_append_singleton (l : List String) (a : String) (h : a ∉ l) :
    (l ++ [a]).erase a = l := by
  rw [List.erase_append_right _ h, List.erase_cons_head, List.append_nil]

/-- C10: whenever the conversion attempt fails (timeout, non-zero exit code,
missing tool output, empty output file, or an exception), `convert_to_pdf`
returns no path, the partial output file is deleted from disk, and the
converter's tracked temporary list is back to what it was — in particular
no zero-byte or missing path is ever returned as success for such an
input. -/
theorem claim_C10_conversion_failure_cleanup
    (fs : FS) (fc : FileConverter) (input_path ext freshTemp : String)
    (attempt : ConvAttempt)
    (hin : fs.pathExists input_path = true)
    (hext : ext ∈ REQUIRES_CONVERSION)
    (hfc : freshTemp ∉ fc.temp_files)
    (hfail : ∀ n, attempt = ConvAttempt.produced n → n = 0) :
    (convert_to_pdf fs fc input_path ext freshTemp attempt).2.2 = none ∧
    (convert_to_pdf fs fc input_path ext freshTemp attempt).1.pathExists freshTemp = false ∧
    (convert_to_pdf fs fc input_path ext freshTemp attempt).2.1.temp_files = fc.temp_files := by
  have herase : (fc.temp_files ++ [freshTemp]).erase freshTemp = fc.temp_files :=
    erase_append_singleton _ _ hfc
  fin_cases hext <;>
    rcases attempt with _ | _ | _ | n | _ <;>
      first
      | (have hn := hfail n rfl
         subst hn
         simp [convert_to_pdf, convertDocxToPdf, convertImageToPdf, cleanupFile,
           hin, FS.pathExists_write, FS.pathExists_remove, FS.size_write, herase,
           REQUIRES_CONVERSION])
      | simp [convert_to_pdf, convertDocxToPdf, convertImageToPdf, cleanupFile,
          hin, FS.pathExists_write, FS.pathExists_remove, FS.size_write, herase,
          REQUIRES_CONVERSION]

/-- C10 witness: a concrete timed-out docx conversion. -/
theorem claim_C10_witness :
    (convert_to_pdf ⟨fun q => if q = "a.docx" then some 9 else none⟩ ⟨[]⟩
        "a.docx" ".docx" "tmp1.pdf" ConvAttempt.timeout).2.2 = none ∧
    (convert_to_pdf ⟨fun q => if q = "a.docx" then some 9 else none⟩ ⟨[]⟩
        "a.docx" ".docx" "tmp1.pdf" ConvAttempt.timeout).1.pathExists "tmp1.pdf" = false ∧
    (convert_to_pdf ⟨fun q => if q = "a.docx" then some 9 else none⟩ ⟨[]⟩
        "a.docx" ".docx" "tmp1.pdf" ConvAttempt.timeout).2.1.temp_files = [] := by
  exact claim_C10_conversion_failure_cleanup _ _ _ _ _ _
    (by simp [FS.pathExists]) (by decide) (by simp)
    (fun n h => by cases h)

/-! ### C6: the status a fresh upload is created with -/

/-- A landlord, used to exercise the upload endpoint. -/
def uploadExampleLandlord : User :=
  { id := 1, email := "landlord@example.com", first_name := "", last_name := "",
    is_active := true, is_superuser := false, role := "landlord" }

/-- A database holding one household owned by that landlord. -/
def uploadExampleDB : DB :=
  { DB.empty with households := [{ id := 1, landlord := 1 }], nextId := 2 }

/-- A valid 25-byte PDF upload. -/
def uploadExampleFile : UploadedFile :=
  { name := "tenancy.pdf", ext := ".pdf", size := 25 }

/-- A well-formed decoded AI response. -/
def uploadExampleResponse : RawExtraction :=
  { start_date := some "2024-01-15"
    end_date := some "2025-01-14"
    monthly_rent := some 1500
    deposit := some 3000
    renters := some [{ first_name := some "John", last_name := some "Doe",
                       email := some "john@example.com", phone_number := none }]
    first_name := none
    last_name := none
    email := none
    phone_number := none }

/-- C6: a `TenancyAgreement` is never created in `pending` state at upload
time.  The `objects.create` call of `upload_tenancy` sets `processing`
immediately, and the record returned by the upload request is `processed`
(successful inline extraction) or `failed` (any extraction error) — at odds
with the spec's `pending` and with the repository's own test
`test_upload_tenancy_pdf`, which asserts `status == 'pending'` after an
upload. -/
theorem claim_C6_upload_never_pending :
    (uploadCreateRecord uploadExampleDB { id := 1, landlord := 1 }).status =
      AStatus.processing ∧
    AStatus.processing ≠ AStatus.pending ∧
    (upload_tenancy uploadExampleDB uploadExampleLandlord 1 (some uploadExampleFile)
        (.ok uploadExampleResponse)).2 =
      .ok { id := 2, household := 1, file := 2,
            extracted_data := some (extract_tenant_data uploadExampleResponse),
            status := AStatus.processed } ∧
    (upload_tenancy uploadExampleDB uploadExampleLandlord 1 (some uploadExampleFile)
        (.error "invalid JSON")).2 =
      .ok { id := 2, household := 1, file := 2, extracted_data := none,
            status := AStatus.failed } := by
  refine ⟨rfl, by decide, rfl, rfl⟩

/-! ### C3: primary renter uniqueness -/

/-- The primary renters of a tenancy. -/
def primaries (db : DB) (t : Nat) : List Renter :=
  db.renters.filter fun r => r.tenancy == t && r.is_primary

theorem filter_demoted_nil (rs : List Renter) (t : Nat) :
    ((rs.map fun x =>
        if x.tenancy == t && x.is_primary then { x with is_primary := false } else x).filter
      fun r => r.tenancy == t && r.is_primary) = [] := by
  induction rs with
  | nil => rfl
  | cons a rs ih =>
    by_cases h : (a.tenancy == t && a.is_primary) = true
    · simp only [List.map_cons, if_pos h, List.filter_cons]
      simpa using ih
    · simp only [List.map_cons, if_neg h, List.filter_cons]
      exact ih

theorem renterCreate_true_primaries (db : DB) (t u : Nat) :
    primaries (renterCreate db t u true).1 t =
      [{ id := db.nextId, tenancy := t, user := u, is_primary := true }] := by
  simp only [renterCreate, primaries]
  rw [if_pos trivial, List.filter_append, filter_demoted_nil]
  simp

theorem renterCreate_false_primaries (db : DB) (t u : Nat) :
    primaries (renterCreate db t u false).1 t = primaries db t := by
  simp only [renterCreate, primaries]
  rw [if_neg (by decide), List.filter_append]
  simp

/-- The database after a sequence of renter additions to tenancy `t`; each
entry carries the user id and the `is_primary` flag of the add. -/
def addRentersSeq (db : DB) (t : Nat) (specs : List (Nat × Bool)) : DB :=
  specs.foldl (fun d s => (renterCreate d t s.1 s.2).1) db

theorem addRentersSeq_nextId (t : Nat) (specs : List (Nat × Bool)) (db : DB) :
    (addRentersSeq db t specs).nextId = db.nextId + specs.length := by
  induction specs generalizing db with
  | nil => rfl
  | cons s rest ih =>
    show (addRentersSeq (renterCreate db t s.1 s.2).1 t rest).nextId = _
    rw [ih]
    show (renterCreate db t s.1 s.2).1.nextId + rest.length = _
    simp [renterCreate]
    omega

theorem addRentersSeq_false_primaries (t : Nat) (specs : List (Nat × Bool)) (db : DB)
    (h : ∀ s ∈ specs, s.2 = false) :
    primaries (addRentersSeq db t specs) t = primaries db t := by
  induction specs generalizing db with
  | nil => rfl
  | cons s rest ih =>
    have hs : s.2 = false := h s (by simp)
    have hs' : s = (s.1, false) := by
      cases s
      simpa using hs
    show primaries (addRentersSeq (renterCreate db t s.1 s.2).1 t rest) t = _
    rw [ih _ fun x hx => h x (by simp [hx]), hs', renterCreate_false_primaries]

/-- C3: after a sequence of renter additions to a tenancy in which the k-th
addition (position `pre.length`) is marked primary and every later one is
not, exactly one renter of the tenancy is primary — the one created by the
k-th addition; and adding one more renter marked primary to any state
demotes all previously primary renters of that tenancy, leaving the new one
as the only primary. -/
theorem claim_C3_primary_renter_uniqueness
    (db : DB) (t u : Nat) (pre post : List (Nat × Bool))
    (hpost : ∀ s ∈ post, s.2 = false) :
    primaries (addRentersSeq db t (pre ++ (u, true) :: post)) t =
      [{ id := db.nextId + pre.length, tenancy := t, user := u, is_primary := true }] ∧
    ∀ (db' : DB) (v : Nat),
      primaries (renterCreate db' t v true).1 t =
        [{ id := db'.nextId, tenancy := t, user := v, is_primary := true }] := by
  constructor
  · have hsplit : addRentersSeq db t (pre ++ (u, true) :: post) =
        addRentersSeq (renterCreate (addRentersSeq db t pre) t u true).1 t post := by
      unfold addRentersSeq
      rw [List.foldl_append, List.foldl_cons]
    rw [hsplit, addRentersSeq_false_primaries _ _ _ hpost, renterCreate_true_primaries,
        addRentersSeq_nextId]
  · intro db' v
    exact renterCreate_true_primaries db' t v

/-- C3 witness: three additions to tenancy 4 of an empty database, the
second (user 9) marked primary; user 9's renter row is the unique primary,
and a later primary addition (user 12) takes over. -/
theorem claim_C3_witness :
    primaries (addRentersSeq DB.empty 4 [(7, false), (9, true), (8, false)]) 4 =
      [{ id := 1, tenancy := 4, user := 9, is_primary := true }] ∧
    primaries
        (renterCreate (addRentersSeq DB.empty 4 [(7, false), (9, true), (8, false)])
          4 12 true).1 4 =
      [{ id := 3, tenancy := 4, user := 12, is_primary := true }] := by
  have h := claim_C3_primary_renter_uniqueness DB.empty 4 9 [(7, false)] [(8, false)]
    (by decide)
  exact ⟨h.1, h.2 _ 12⟩

/-! ### Validation and lookup helper lemmas -/

theorem tenancyConfirmValidate_some {r d : ConfirmReq}
    (h : tenancyConfirmValidate r = some d) :
    d = { r with tenancy_name := pyStrip r.tenancy_name } ∧
    tenancyConfirmDatesInvalid r.start_date r.end_date = false := by
  unfold tenancyConfirmValidate at h
  repeat split at h
  all_goals simp_all

theorem confirmFindAgreement_some {db : DB} {caller : User} {aid : Nat}
    {ag : TenancyAgreement} (h : confirmFindAgreement db caller aid = some ag) :
    ag ∈ db.agreements ∧ ag.id = aid ∧ ag.status = AStatus.processed ∧
    ∃ hh ∈ db.households, hh.id = ag.household ∧ hh.landlord = caller.id := by
  unfold confirmFindAgreement at h
  have hmem := List.mem_of_find?_eq_some h
  have hp := List.find?_some h
  simp only [Bool.and_eq_true, beq_iff_eq, List.any_eq_true] at hp
  obtain ⟨⟨hid, hh⟩, hst⟩ := hp
  obtain ⟨x, hx, h1, h2⟩ := hh
  exact ⟨hmem, hid, hst, x, hx, h1, h2⟩

/-- C7: whenever a confirm call returns a tenancy — on the update path and
on the create path alike — that tenancy's status has been recomputed from
the confirmed start date: `active` when it is on or before today, `future`
otherwise. -/
theorem claim_C7_confirm_status_derivation (db : DB) (caller : User) (today : Nat)
    (req : ConfirmReq) (t : Tenancy)
    (h : (confirm_tenancy db caller today req).2 = .ok t) :
    t.status = (if req.start_date ≤ today then TStatus.active else TStatus.future) ∧
    t.start_date = req.start_date := by
  unfold confirm_tenancy at h
  split at h
  · simp at h
  · split at h
    · simp at h
    · next d hd =>
      obtain ⟨rfl, -⟩ := tenancyConfirmValidate_some hd
      split at h
      · simp at h
      · next ag hag =>
        split at h
        · next existing hex =>
          split at h
          · next db' hupd =>
            obtain rfl : confirmUpdatedTenancy existing _ today = t := by
              simpa using h
            simp [confirmUpdatedTenancy]
          · simp at h
        · next hex =>
          split at h
          · next db' hins =>
            obtain rfl : confirmNewTenancy db _ ag today = t := by
              simpa using h
            simp [confirmNewTenancy]
          · simp at h

/-- A processed agreement on household 1 with file handle 3. -/
def confirmExampleAgreement : TenancyAgreement :=
  { id := 2, household := 1, file := 3, extracted_data := none,
    status := AStatus.processed }

/-- A database holding household 1 (owned by user 1) and the processed
agreement. -/
def confirmExampleDB : DB :=
  { DB.empty with
    households := [{ id := 1, landlord := 1 }]
    agreements := [confirmExampleAgreement]
    nextId := 4 }

/-- A schema-valid confirm request for that agreement with a past start
date (50 ≤ "today" = 100). -/
def confirmExampleReq : ConfirmReq :=
  { tenancy_agreement_id := 2, tenancy_name := "Lease", start_date := 50,
    end_date := some 400, monthly_rent := 1500, deposit := 0 }

/-- C7 witness: a concrete confirm whose start date is in the past yields an
`active` tenancy. -/
theorem claim_C7_witness :
    (confirm_tenancy confirmExampleDB uploadExampleLandlord 100 confirmExampleReq).2 =
      .ok (confirmNewTenancy confirmExampleDB confirmExampleReq
        confirmExampleAgreement 100) ∧
    (confirmNewTenancy confirmExampleDB confirmExampleReq
        confirmExampleAgreement 100).status =
      (if 50 ≤ 100 then TStatus.active else TStatus.future) := by
  constructor
  · rfl
  · exact (claim_C7_confirm_status_derivation confirmExampleDB uploadExampleLandlord 100
      confirmExampleReq
      (confirmNewTenancy confirmExampleDB confirmExampleReq confirmExampleAgreement 100)
      rfl).1

/-- C5: confirm succeeds only on a `processed` agreement whose household the
caller owns; and whenever every agreement with the requested id is not
`processed` or not owned by the caller, a schema-valid confirm fails with
the not-found error and writes nothing. -/
theorem claim_C5_confirm_preconditions :
    (∀ (db : DB) (caller : User) (today : Nat) (req : ConfirmReq) (t : Tenancy),
      (confirm_tenancy db caller today req).2 = .ok t →
      ∃ ag ∈ db.agreements, ag.id = req.tenancy_agreement_id ∧
        ag.status = AStatus.processed ∧
        ∃ hh ∈ db.households, hh.id = ag.household ∧ hh.landlord = caller.id) ∧
    (∀ (db : DB) (caller : User) (today : Nat) (req : ConfirmReq),
      (caller.is_landlord || caller.is_admin) = true →
      tenancyConfirmValidate req ≠ none →
      (∀ ag ∈ db.agreements, ag.id = req.tenancy_agreement_id →
        ag.status ≠ AStatus.processed ∨
          ∀ hh ∈ db.households, hh.id = ag.household → hh.landlord ≠ caller.id) →
      confirm_tenancy db caller today req = (db, .error ConfirmError.notFound)) := by
  constructor
  · intro db caller today req t h
    unfold confirm_tenancy at h
    split at h
    · simp at h
    · split at h
      · simp at h
      · next d hd =>
        obtain ⟨rfl, -⟩ := tenancyConfirmValidate_some hd
        split at h
        · simp at h
        · next ag hag =>
          obtain ⟨hmem, hid, hst, hh, hhmem, h1, h2⟩ := confirmFindAgreement_some hag
          exact ⟨ag, hmem, hid, hst, hh, hhmem, h1, h2⟩
  · intro db caller today req hperm hval hno
    obtain ⟨d, hd⟩ := Option.ne_none_iff_exists'.mp hval
    obtain ⟨rfl, -⟩ := tenancyConfirmValidate_some hd
    have hfind : confirmFindAgreement db caller req.tenancy_agreement_id = none := by
      unfold confirmFindAgreement
      rw [List.find?_eq_none]
      intro a ha
      simp only [Bool.and_eq_true, beq_iff_eq, List.any_eq_true, not_and]
      rintro ⟨hid, hown⟩
      obtain ⟨x, hx, hxid, hxl⟩ := hown
      rcases hno a ha hid with hst | hmis
      · intro hs
        exact hst hs
      · exact absurd hxl (hmis x hx hxid)
    unfold confirm_tenancy
    rw [hd]
    simp [hperm, hfind]

/-- The same database but with the agreement in `failed` state. -/
def confirmFailedDB : DB :=
  { DB.empty with
    households := [{ id := 1, landlord := 1 }]
    agreements := [{ id := 2, household := 1, file := 3,
                     extracted_data := none, status := AStatus.failed }]
    nextId := 4 }

/-- C5 witness: a schema-valid confirm against a `failed` agreement owned by
the caller returns not-found and leaves the database untouched. -/
theorem claim_C5_witness :
    confirm_tenancy confirmFailedDB uploadExampleLandlord 100 confirmExampleReq =
      (confirmFailedDB, .error ConfirmError.notFound) := by
  apply claim_C5_confirm_preconditions.2
  · rfl
  · intro h
    rw [show tenancyConfirmValidate confirmExampleReq =
      some { confirmExampleReq with tenancy_name := pyStrip "Lease" } from rfl] at h
    exact Option.noConfusion h
  · decide

/-! ### C1: idempotent confirm -/

theorem map_id_of_mem {α : Type} (l : List α) (f : α → α) (h : ∀ x ∈ l, f x = x) :
    l.map f = l := by
  conv_rhs => rw [show l = l.map id from (List.map_id l).symm]
  exact List.map_congr_left h

theorem hasOtherActive_eq_false {ts : List Tenancy} {t : Tenancy}
    (h : ∀ u ∈ ts, u.household = t.household → u.status = TStatus.active → u.id = t.id) :
    hasOtherActive ts t = false := by
  unfold hasOtherActive
  rw [List.any_eq_false]
  intro u hu
  simp only [Bool.and_eq_true, beq_iff_eq, bne_iff_ne]
  rintro ⟨⟨h1, h2⟩, h3⟩
  exact h3 (h u hu h1 h2)

/-- C1: a confirm against a processed, owned agreement whose file no tenancy
references yet (and whose household has no conflicting active tenancy)
creates exactly one tenancy linked to that file; repeating the call with
the same payload finds that tenancy through its proof document and updates
it in place — afterwards there is still exactly one linked row, the table
did not grow, and the row carries the payload's name, dates, rent and
deposit. -/
theorem claim_C1_confirm_idempotent
    (db : DB) (caller : User) (today : Nat) (req : ConfirmReq) (ag : TenancyAgreement)
    (hperm : (caller.is_landlord || caller.is_admin) = true)
    (hval : tenancyConfirmValidate req ≠ none)
    (hag : confirmFindAgreement db caller req.tenancy_agreement_id = some ag)
    (hnone : ∀ t ∈ db.tenancies, t.proof_document ≠ some ag.file)
    (hbound : ∀ t ∈ db.tenancies, t.id < db.nextId)
    (hnoact : req.start_date ≤ today →
      ∀ t ∈ db.tenancies, t.household = ag.household → t.status ≠ TStatus.active) :
    ∃ t1,
      (confirm_tenancy db caller today req).2 = .ok t1 ∧
      t1.proof_document = some ag.file ∧
      ((confirm_tenancy db caller today req).1.tenancies.countP
        fun t => t.proof_document == some ag.file) = 1 ∧
      (confirm_tenancy db caller today req).1.tenancies.length =
        db.tenancies.length + 1 ∧
      (confirm_tenancy (confirm_tenancy db caller today req).1 caller today req).2 =
        .ok t1 ∧
      (confirm_tenancy (confirm_tenancy db caller today req).1 caller today req).1 =
        (confirm_tenancy db caller today req).1 ∧
      t1.name = pyStrip req.tenancy_name ∧
      t1.start_date = req.start_date ∧
      t1.end_date = req.end_date ∧
      t1.monthly_rent = req.monthly_rent ∧
      t1.deposit = req.deposit := by
  obtain ⟨d, hd⟩ := Option.ne_none_iff_exists'.mp hval
  obtain ⟨rfl, -⟩ := tenancyConfirmValidate_some hd
  have hfind0 : db.tenancies.find? (fun t => t.proof_document == some ag.file) = none :=
    List.find?_eq_none.mpr fun t ht => by simpa using hnone t ht
  set d : ConfirmReq := { req with tenancy_name := pyStrip req.tenancy_name } with hdd
  set t1 : Tenancy := confirmNewTenancy db d ag today with ht1
  have ht1s : t1.status = if req.start_date ≤ today then TStatus.active else TStatus.future := by
    rw [ht1]
    rfl
  have ht1p : t1.proof_document = some ag.file := by
    rw [ht1]
    rfl
  have ht1h : t1.household = ag.household := by
    rw [ht1]
    rfl
  have ht1i : t1.id = db.nextId := by
    rw [ht1]
    rfl
  have hguard : (t1.status == TStatus.active && hasOtherActive db.tenancies t1) = false := by
    by_cases hs : req.start_date ≤ today
    · rw [hasOtherActive_eq_false fun u hu h1 h2 =>
        absurd h2 (hnoact hs u hu (ht1h ▸ h1))]
      simp
    · have hf : t1.status = TStatus.future := by rw [ht1s, if_neg hs]
      simp [hf]
  have hins : dbInsertTenancy db t1 = .ok { db with tenancies := db.tenancies ++ [t1] } := by
    unfold dbInsertTenancy
    rw [hguard]
    simp
  have hrun1 : confirm_tenancy db caller today req =
      ({ db with tenancies := db.tenancies ++ [t1], nextId := db.nextId + 1 }, .ok t1) := by
    unfold confirm_tenancy
    simp only [hperm, Bool.not_true, Bool.false_eq_true, if_false, hd]
    rw [show ({ req with tenancy_name := pyStrip req.tenancy_name } :
      ConfirmReq).tenancy_agreement_id = req.tenancy_agreement_id from rfl, hag]
    simp only [hfind0, ← ht1, hins]
  set db1 : DB := { db with tenancies := db.tenancies ++ [t1], nextId := db.nextId + 1 }
    with hdb1
  have hag2 : confirmFindAgreement db1 caller req.tenancy_agreement_id = some ag := hag
  have hfind1 : db1.tenancies.find? (fun t => t.proof_document == some ag.file) = some t1 := by
    show (db.tenancies ++ [t1]).find? _ = some t1
    rw [List.find?_append, hfind0]
    simp [List.find?_cons, ht1p]
  have hupd_eq : confirmUpdatedTenancy t1 d today = t1 := by
    rw [ht1]
    rfl
  have hguard2 : (t1.status == TStatus.active && hasOtherActive db1.tenancies t1) = false := by
    by_cases hs : req.start_date ≤ today
    · rw [hasOtherActive_eq_false ?uniq]
      · simp
      case uniq =>
        intro u hu h1 h2
        have hu' : u ∈ db.tenancies ++ [t1] := hu
        rcases List.mem_append.mp hu' with h | h
        · exact absurd h2 (hnoact hs u h (ht1h ▸ h1))
        · rw [List.mem_singleton.mp h]
    · have hf : t1.status = TStatus.future := by rw [ht1s, if_neg hs]
      simp [hf]
  have hmap : db1.tenancies.map (fun u => if u.id == t1.id then t1 else u) = db1.tenancies := by
    show (db.tenancies ++ [t1]).map _ = db.tenancies ++ [t1]
    rw [List.map_append]
    congr 1
    · apply map_id_of_mem
      intro x hx
      have hxne : x.id ≠ t1.id := by
        have := hbound x hx
        rw [ht1i]
        omega
      simp [hxne]
    · simp
  have hupd : dbUpdateTenancy db1 t1 = .ok db1 := by
    unfold dbUpdateTenancy
    rw [hguard2]
    simp only [Bool.false_eq_true, if_false, hmap]
  have hrun2 : confirm_tenancy db1 caller today req = (db1, .ok t1) := by
    unfold confirm_tenancy
    simp only [hperm, Bool.not_true, Bool.false_eq_true, if_false, hd]
    rw [show ({ req with tenancy_name := pyStrip req.tenancy_name } :
      ConfirmReq).tenancy_agreement_id = req.tenancy_agreement_id from rfl, hag2]
    simp only [hfind1, hupd_eq, hupd]
  refine ⟨t1, ?_, ht1p, ?_, ?_, ?_, ?_, ?_, ?_, ?_, ?_, ?_⟩
  · rw [hrun1]
  · rw [hrun1]
    show ((db.tenancies ++ [t1]).countP _) = 1
    rw [List.countP_append,
      List.countP_eq_zero.mpr fun t ht => by simpa using hnone t ht]
    simp [List.countP_cons, ht1p]
  · rw [hrun1]
    show (db.tenancies ++ [t1]).length = _
    simp
  · rw [hrun1]
    show (confirm_tenancy db1 caller today req).2 = .ok t1
    rw [hrun2]
  · rw [hrun1]
    show (confirm_tenancy db1 caller today req).1 = db1
    rw [hrun2]
  · rw [ht1]
    rfl
  · rw [ht1]
    rfl
  · rw [ht1]
    rfl
  · rw [ht1]
    rfl
  · rw [ht1]
    rfl

/-- C1 witness: running confirm twice on the example database. -/
theorem claim_C1_witness :
    ∃ t1,
      (confirm_tenancy confirmExampleDB uploadExampleLandlord 100 confirmExampleReq).2 =
        .ok t1 ∧
      t1.proof_document = some confirmExampleAgreement.file ∧
      ((confirm_tenancy confirmExampleDB uploadExampleLandlord 100
          confirmExampleReq).1.tenancies.countP
        fun t => t.proof_document == some confirmExampleAgreement.file) = 1 ∧
      (confirm_tenancy confirmExampleDB uploadExampleLandlord 100
          confirmExampleReq).1.tenancies.length =
        confirmExampleDB.tenancies.length + 1 ∧
      (confirm_tenancy
          (confirm_tenancy confirmExampleDB uploadExampleLandlord 100 confirmExampleReq).1
          uploadExampleLandlord 100 confirmExampleReq).2 = .ok t1 ∧
      (confirm_tenancy
          (confirm_tenancy confirmExampleDB uploadExampleLandlord 100 confirmExampleReq).1
          uploadExampleLandlord 100 confirmExampleReq).1 =
        (confirm_tenancy confirmExampleDB uploadExampleLandlord 100 confirmExampleReq).1 ∧
      t1.name = pyStrip confirmExampleReq.tenancy_name ∧
      t1.start_date = confirmExampleReq.start_date ∧
      t1.end_date = confirmExampleReq.end_date ∧
      t1.monthly_rent = confirmExampleReq.monthly_rent ∧
      t1.deposit = confirmExampleReq.deposit :=
  claim_C1_confirm_idempotent confirmExampleDB uploadExampleLandlord 100 confirmExampleReq
    confirmExampleAgreement rfl
    (by
      intro h
      rw [show tenancyConfirmValidate confirmExampleReq =
        some { confirmExampleReq with tenancy_name := pyStrip "Lease" } from rfl] at h
      exact Option.noConfusion h)
    rfl
    (by simp [confirmExampleDB, DB.empty])
    (by simp [confirmExampleDB, DB.empty])
    (by
      intro _
      simp [confirmExampleDB, DB.empty])

/-! ### C4: renter reconciliation by email -/

theorem countP_demote (rs : List Renter) (t tid uid : Nat) :
    ((rs.map fun x =>
        if x.tenancy == t && x.is_primary then { x with is_primary := false } else x).countP
      fun r => r.tenancy == tid && r.user == uid) =
    rs.countP fun r => r.tenancy == tid && r.user == uid := by
  induction rs with
  | nil => rfl
  | cons a rs ih =>
    by_cases h : (a.tenancy == t && a.is_primary) = true
    · simp only [List.map_cons, if_pos h, List.countP_cons, ih]
    · simp only [List.map_cons, if_neg h, List.countP_cons, ih]

/-- C4: for a renter-add with an email — when a user with the email exists
and is already attached to the tenancy, the operation fails with the
`ValueError` and writes nothing; when the user exists unattached, exactly
one `Renter` row for (tenancy, user) results and no user or invitation is
created; when no user exists, an inactive `role='tenant'` placeholder user
is created, attached as a renter, and a pending invitation for the
tenancy's household is created. -/
theorem claim_C4_renter_reconciliation
    (db : DB) (tenancy : Tenancy) (email : String)
    (first_name last_name : Option String) (is_primary : Bool) (invited_by : Nat) :
    (∀ u, db.users.find? (fun x => x.email == email) = some u →
      (db.renters.any fun r => r.tenancy == tenancy.id && r.user == u.id) = true →
      add_renter_to_tenancy db tenancy email first_name last_name is_primary invited_by =
        (db, .error "is already a renter in this tenancy")) ∧
    (∀ u, db.users.find? (fun x => x.email == email) = some u →
      (db.renters.any fun r => r.tenancy == tenancy.id && r.user == u.id) = false →
      (add_renter_to_tenancy db tenancy email first_name last_name is_primary
          invited_by).2 =
        .ok { id := db.nextId, tenancy := tenancy.id, user := u.id,
              is_primary := is_primary } ∧
      ((add_renter_to_tenancy db tenancy email first_name last_name is_primary
          invited_by).1.renters.countP
        fun r => r.tenancy == tenancy.id && r.user == u.id) = 1 ∧
      (add_renter_to_tenancy db tenancy email first_name last_name is_primary
          invited_by).1.users = db.users ∧
      (add_renter_to_tenancy db tenancy email first_name last_name is_primary
          invited_by).1.invitations = db.invitations) ∧
    (db.users.find? (fun x => x.email == email) = none →
      (add_renter_to_tenancy db tenancy email first_name last_name is_primary
          invited_by).1.users =
        db.users ++ [{ id := db.nextId, email := email,
                       first_name := first_name.getD "", last_name := last_name.getD "",
                       is_active := false, is_superuser := false, role := "tenant" }] ∧
      (add_renter_to_tenancy db tenancy email first_name last_name is_primary
          invited_by).2 =
        .ok { id := db.nextId + 1, tenancy := tenancy.id, user := db.nextId,
              is_primary := is_primary } ∧
      ({ id := db.nextId + 1, tenancy := tenancy.id, user := db.nextId,
         is_primary := is_primary } : Renter) ∈
        (add_renter_to_tenancy db tenancy email first_name last_name is_primary
          invited_by).1.renters ∧
      (add_renter_to_tenancy db tenancy email first_name last_name is_primary
          invited_by).1.invitations =
        db.invitations ++ [{ id := db.nextId + 2, email := email,
                             household := tenancy.household, invited_by := invited_by,
                             accepted_at := none }]) := by
  refine ⟨?_, ?_, ?_⟩
  · intro u hu hatt
    unfold add_renter_to_tenancy
    rw [hu]
    simp [hatt]
  · intro u hu hatt
    unfold add_renter_to_tenancy
    rw [hu]
    simp only [hatt, Bool.false_eq_true, if_false, renterCreate]
    refine ⟨by trivial, ?_, by trivial, by trivial⟩
    rw [List.countP_append]
    have h0 : db.renters.countP (fun r => r.tenancy == tenancy.id && r.user == u.id) = 0 :=
      List.countP_eq_zero.mpr (List.any_eq_false.mp hatt)
    by_cases hp : is_primary = true
    · simp only [hp, if_pos trivial, countP_demote, h0]
      simp
    · simp only [Bool.not_eq_true] at hp
      simp only [hp, Bool.false_eq_true, if_false, h0]
      simp
  · intro hnone
    unfold add_renter_to_tenancy
    rw [hnone]
    simp only [renterCreate]
    refine ⟨by trivial, by trivial, ?_, by trivial⟩
    apply List.mem_append_right
    simp

/-- C4 witness: all three branches at concrete states — user 7 attached to
tenancy 3 (rejection), user 7 unattached (single row), and an unknown email
(placeholder user, renter and pending invitation). -/
theorem claim_C4_witness :
    add_renter_to_tenancy
        { DB.empty with
          users := [{ id := 7, email := "a@b.c", first_name := "A", last_name := "B",
                      is_active := true, is_superuser := false, role := "tenant" }]
          renters := [{ id := 1, tenancy := 3, user := 7, is_primary := false }]
          nextId := 9 }
        { id := 3, household := 2, name := "T", status := TStatus.active,
          start_date := 0, end_date := none, monthly_rent := 0, deposit := 0,
          proof_document := none }
        "a@b.c" none none true 5 =
      ({ DB.empty with
          users := [{ id := 7, email := "a@b.c", first_name := "A", last_name := "B",
                      is_active := true, is_superuser := false, role := "tenant" }]
          renters := [{ id := 1, tenancy := 3, user := 7, is_primary := false }]
          nextId := 9 }, .error "is already a renter in this tenancy") ∧
    ((add_renter_to_tenancy
        { DB.empty with
          users := [{ id := 7, email := "a@b.c", first_name := "A", last_name := "B",
                      is_active := true, is_superuser := false, role := "tenant" }]
          nextId := 9 }
        { id := 3, household := 2, name := "T", status := TStatus.active,
          start_date := 0, end_date := none, monthly_rent := 0, deposit := 0,
          proof_document := none }
        "a@b.c" none none true 5).1.renters.countP
      fun r => r.tenancy == 3 && r.user == 7) = 1 ∧
    (add_renter_to_tenancy
        { DB.empty with nextId := 9 }
        { id := 3, household := 2, name := "T", status := TStatus.active,
          start_date := 0, end_date := none, monthly_rent := 0, deposit := 0,
          proof_document := none }
        "new@b.c" (some "N") none false 5).1.invitations =
      [{ id := 11, email := "new@b.c", household := 2, invited_by := 5,
         accepted_at := none }] := by
  refine ⟨?_, ?_, ?_⟩
  · exact (claim_C4_renter_reconciliation
      { DB.empty with
        users := [{ id := 7, email := "a@b.c", first_name := "A", last_name := "B",
                    is_active := true, is_superuser := false, role := "tenant" }]
        renters := [{ id := 1, tenancy := 3, user := 7, is_primary := false }]
        nextId := 9 }
      { id := 3, household := 2, name := "T", status := TStatus.active,
        start_date := 0, end_date := none, monthly_rent := 0, deposit := 0,
        proof_document := none }
      "a@b.c" none none true 5).1
      { id := 7, email := "a@b.c", first_name := "A", last_name := "B",
        is_active := true, is_superuser := false, role := "tenant" } rfl rfl
  · exact ((claim_C4_renter_reconciliation
      { DB.empty with
        users := [{ id := 7, email := "a@b.c", first_name := "A", last_name := "B",
                    is_active := true, is_superuser := false, role := "tenant" }]
        nextId := 9 }
      { id := 3, household := 2, name := "T", status := TStatus.active,
        start_date := 0, end_date := none, monthly_rent := 0, deposit := 0,
        proof_document := none }
      "a@b.c" none none true 5).2.1
      { id := 7, email := "a@b.c", first_name := "A", last_name := "B",
        is_active := true, is_superuser := false, role := "tenant" } rfl rfl).2.1
  · have h := ((claim_C4_renter_reconciliation { DB.empty with nextId := 9 }
      { id := 3, household := 2, name := "T", status := TStatus.active,
        start_date := 0, end_date := none, monthly_rent := 0, deposit := 0,
        proof_document := none }
      "new@b.c" (some "N") none false 5).2.2 rfl).2.2.2
    simpa [DB.empty] using h

/-! ### C2: at most one active tenancy per household

The database constraint `one_active_tenancy_per_household` is captured by
the checked writes `dbInsertTenancy`/`dbUpdateTenancy`; `DBInv` is the
well-formedness every reachable state enjoys: primary keys are distinct and
below the id counter, and any two active rows of one household coincide. -/

/-- Any two active tenancies of the same household are the same row. -/
def activePairwise (ts : List Tenancy) : Prop :=
  ∀ t1 ∈ ts, ∀ t2 ∈ ts, t1.status = TStatus.active → t2.status = TStatus.active →
    t1.household = t2.household → t1.id = t2.id

/-- Well-formedness of a database state. -/
structure DBInv (db : DB) : Prop where
  nodup : (db.tenancies.map Tenancy.id).Nodup
  bound : ∀ t ∈ db.tenancies, t.id < db.nextId
  oneActive : activePairwise db.tenancies

theorem DBInv.empty : DBInv DB.empty := by
  refine ⟨by simp [DB.empty], by simp [DB.empty], ?_⟩
  intro t1 h1
  simp [DB.empty] at h1

theorem DBInv.frame {db db' : DB} (w : DBInv db) (ht : db'.tenancies = db.tenancies)
    (hn : db.nextId ≤ db'.nextId) : DBInv db' := by
  refine ⟨?_, ?_, ?_⟩
  · rw [ht]
    exact w.nodup
  · intro t h
    rw [ht] at h
    exact lt_of_lt_of_le (w.bound t h) hn
  · rw [ht]
    exact w.oneActive

theorem hasOtherActive_false_elim {ts : List Tenancy} {t u : Tenancy}
    (hg : hasOtherActive ts t = false) (hu : u ∈ ts) (h1 : u.household = t.household)
    (h2 : u.status = TStatus.active) : u.id = t.id := by
  unfold hasOtherActive at hg
  have := List.any_eq_false.mp hg u hu
  simp only [Bool.and_eq_true, beq_iff_eq, bne_iff_ne, not_and] at this
  by_contra hne
  exact this ⟨h1, h2⟩ hne

theorem DBInv.insert {db db' : DB} {t : Tenancy} (w : DBInv db)
    (hid : t.id = db.nextId)
    (hg : t.status = TStatus.active → hasOtherActive db.tenancies t = false)
    (ht : db'.tenancies = db.tenancies ++ [t]) (hn : db.nextId < db'.nextId) :
    DBInv db' := by
  refine ⟨?_, ?_, ?_⟩
  · rw [ht, List.map_append, List.nodup_append]
    refine ⟨w.nodup, List.nodup_singleton _, ?_⟩
    intro x hx
    simp only [List.map_singleton, List.mem_singleton]
    obtain ⟨u, hu, rfl⟩ := List.mem_map.mp hx
    have := w.bound u hu
    omega
  · intro x hx
    rw [ht] at hx
    rcases List.mem_append.mp hx with h | h
    · exact lt_of_lt_of_le (w.bound x h) (Nat.le_of_lt hn)
    · rw [List.mem_singleton.mp h, hid]
      exact hn
  · rw [ht]
    intro t1 h1 t2 h2 ha1 ha2 hh
    rcases List.mem_append.mp h1 with m1 | m1 <;> rcases List.mem_append.mp h2 with m2 | m2
    · exact w.oneActive t1 m1 t2 m2 ha1 ha2 hh
    · rw [List.mem_singleton.mp m2] at hh ⊢
      exact hasOtherActive_false_elim (hg (by rw [← List.mem_singleton.mp m2]; exact ha2))
        m1 hh ha1
    · rw [List.mem_singleton.mp m1] at hh ⊢
      exact (hasOtherActive_false_elim (hg (by rw [← List.mem_singleton.mp m1]; exact ha1))
        m2 hh.symm ha2).symm
    · rw [List.mem_singleton.mp m1, List.mem_singleton.mp m2]

theorem DBInv.update {db db' : DB} {t : Tenancy} (w : DBInv db)
    (hg : t.status = TStatus.active → hasOtherActive db.tenancies t = false)
    (ht : db'.tenancies = db.tenancies.map fun u => if u.id == t.id then t else u)
    (hn : db.nextId ≤ db'.nextId) : DBInv db' := by
  have hids : (db'.tenancies.map Tenancy.id) = db.tenancies.map Tenancy.id := by
    rw [ht, List.map_map]
    apply List.map_congr_left
    intro u _
    by_cases h : (u.id == t.id) = true
    · simp only [Function.comp_apply, if_pos h]
      exact (beq_iff_eq.mp h).symm
    · simp only [Function.comp_apply, if_neg h]
  refine ⟨?_, ?_, ?_⟩
  · rw [hids]
    exact w.nodup
  · intro x hx
    rw [ht] at hx
    obtain ⟨u, hu, rfl⟩ := List.mem_map.mp hx
    by_cases h : (u.id == t.id) = true
    · rw [if_pos h]
      have := w.bound u hu
      have := beq_iff_eq.mp h
      omega
    · rw [if_neg h]
      exact lt_of_lt_of_le (w.bound u hu) hn
  · rw [ht]
    intro t1 h1 t2 h2 ha1 ha2 hh
    obtain ⟨u1, hu1, rfl⟩ := List.mem_map.mp h1
    obtain ⟨u2, hu2, rfl⟩ := List.mem_map.mp h2
    by_cases e1 : (u1.id == t.id) = true <;> by_cases e2 : (u2.id == t.id) = true
    · rw [if_pos e1, if_pos e2]
    · rw [if_pos e1] at ha1 hh ⊢
      rw [if_neg e2] at ha2 hh ⊢
      have := hasOtherActive_false_elim (hg ha1) hu2 hh.symm ha2
      simp only [beq_iff_eq] at e2
      exact absurd this e2
    · rw [if_neg e1] at ha1 hh ⊢
      rw [if_pos e2] at ha2 hh ⊢
      have := hasOtherActive_false_elim (hg ha2) hu1 hh ha1
      simp only [beq_iff_eq] at e1
      exact absurd this e1
    · rw [if_neg e1] at ha1 hh ⊢
      rw [if_neg e2] at ha2 hh ⊢
      exact w.oneActive u1 hu1 u2 hu2 ha1 ha2 hh

theorem dbInsertTenancy_ok {db db' : DB} {t : Tenancy}
    (h : dbInsertTenancy db t = .ok db') :
    (t.status = TStatus.active → hasOtherActive db.tenancies t = false) ∧
    db' = { db with tenancies := db.tenancies ++ [t] } := by
  unfold dbInsertTenancy at h
  split at h
  · exact absurd h (by simp)
  · next hc =>
    refine ⟨?_, by injection h with h2; exact h2.symm⟩
    intro hs
    simpa [hs] using hc

theorem dbUpdateTenancy_ok {db db' : DB} {t : Tenancy}
    (h : dbUpdateTenancy db t = .ok db') :
    (t.status = TStatus.active → hasOtherActive db.tenancies t = false) ∧
    db' = { db with tenancies := db.tenancies.map fun u => if u.id == t.id then t else u } := by
  unfold dbUpdateTenancy at h
  split at h
  · exact absurd h (by simp)
  · next hc =>
    refine ⟨?_, by injection h with h2; exact h2.symm⟩
    intro hs
    simpa [hs] using hc

theorem create_household_frame (db : DB) (c : User) :
    (create_household db c).1.tenancies = db.tenancies ∧
    db.nextId ≤ (create_household db c).1.nextId := by
  unfold create_household
  split
  all_goals exact ⟨rfl, by dsimp only; omega⟩

theorem upload_tenancy_frame (db : DB) (c : User) (hid : Nat) (f : Option UploadedFile)
    (resp : Except String RawExtraction) :
    (upload_tenancy db c hid f resp).1.tenancies = db.tenancies ∧
    db.nextId ≤ (upload_tenancy db c hid f resp).1.nextId := by
  unfold upload_tenancy dbSetAgreement
  repeat' split
  all_goals exact ⟨rfl, by dsimp only; omega⟩

theorem process_tenancy_frame (db : DB) (c : User) (pk : Nat)
    (resp : Except String RawExtraction) :
    (process_tenancy db c pk resp).1.tenancies = db.tenancies ∧
    db.nextId ≤ (process_tenancy db c pk resp).1.nextId := by
  unfold process_tenancy dbSetAgreement
  repeat' split
  all_goals exact ⟨rfl, by dsimp only; omega⟩

theorem add_renter_to_tenancy_frame (db : DB) (tenancy : Tenancy) (email : String)
    (fn ln : Option String) (ip : Bool) (inv : Nat) :
    (add_renter_to_tenancy db tenancy email fn ln ip inv).1.tenancies = db.tenancies ∧
    db.nextId ≤ (add_renter_to_tenancy db tenancy email fn ln ip inv).1.nextId := by
  unfold add_renter_to_tenancy renterCreate
  repeat' split
  all_goals exact ⟨rfl, by dsimp only; omega⟩

theorem createRentersLoop_frame (t : Tenancy) (inv : Nat)
    (specs : List RenterPayload) : ∀ db : DB,
    (createRentersLoop db t inv specs).1.tenancies = db.tenancies ∧
    db.nextId ≤ (createRentersLoop db t inv specs).1.nextId := by
  induction specs with
  | nil => exact fun db => ⟨rfl, Nat.le_refl _⟩
  | cons r rest ih =>
    intro db
    unfold createRentersLoop
    split
    · next db' renter heq =>
      have hf := add_renter_to_tenancy_frame db t r.email r.first_name r.last_name
        r.is_primary inv
      rw [heq] at hf
      obtain ⟨h1, h2⟩ := ih db'
      exact ⟨h1.trans hf.1, hf.2.trans h2⟩
    · exact ⟨rfl, Nat.le_refl _⟩

/-- Preservation of well-formedness by every modelled request. -/
theorem applyOp_inv (db : DB) (op : Op) (w : DBInv db) : DBInv (applyOp db op) := by
  cases op with
  | createHousehold c =>
    have hf := create_household_frame db c
    exact w.frame hf.1 hf.2
  | uploadAgreement c hid f resp =>
    have hf := upload_tenancy_frame db c hid f resp
    exact w.frame hf.1 hf.2
  | processAgreement c pk resp =>
    have hf := process_tenancy_frame db c pk resp
    exact w.frame hf.1 hf.2
  | confirmTenancy c today req =>
    show DBInv (confirm_tenancy db c today req).1
    unfold confirm_tenancy
    split
    · exact w
    · split
      · exact w
      · split
        · exact w
        · split
          · split
            · next db' heq =>
              obtain ⟨hg, rfl⟩ := dbUpdateTenancy_ok heq
              exact w.update hg rfl (Nat.le_refl _)
            · exact w
          · split
            · next db' heq =>
              obtain ⟨hg, rfl⟩ := dbInsertTenancy_ok heq
              exact w.insert rfl hg rfl (Nat.lt_succ_self _)
            · exact w
  | createTenancy c req =>
    show DBInv (tenancy_create db c req).1
    unfold tenancy_create
    split
    · exact w
    · split
      · exact w
      · split
        · exact w
        · dsimp only
          split
          · exact w
          · split
            · exact w
            · next db1 heq =>
              obtain ⟨hg, rfl⟩ := dbInsertTenancy_ok heq
              exact DBInv.frame (w.insert rfl hg rfl (Nat.lt_succ_self _))
                (createRentersLoop_frame _ c.id _ _).1
                (createRentersLoop_frame _ c.id _ _).2
  | updateTenancy c pk req =>
    show DBInv (tenancy_update db c pk req).1
    unfold tenancy_update
    split
    · exact w
    · split
      · exact w
      · split
        · exact w
        · split
          · exact w
          · split
            · next db' heq =>
              obtain ⟨hg, rfl⟩ := dbUpdateTenancy_ok heq
              exact w.update hg rfl (Nat.le_refl _)
            · exact w
  | activateTenancy c pk =>
    show DBInv (tenancy_activate db c pk).1
    unfold tenancy_activate
    split
    · exact w
    · split
      · exact w
      · split
        · exact w
        · dsimp only
          split
          · next db' heq =>
            obtain ⟨hg, rfl⟩ := dbUpdateTenancy_ok heq
            exact w.update hg rfl (Nat.le_refl _)
          · exact w
  | startMoveoutOp c today pk e =>
    show DBInv (start_moveout db c today pk e).1
    unfold start_moveout
    split
    · exact w
    · split
      · exact w
      · split
        · exact w
        · dsimp only
          split
          · next db' heq =>
            obtain ⟨hg, rfl⟩ := dbUpdateTenancy_ok heq
            exact w.update hg rfl (Nat.le_refl _)
          · exact w
  | markMovedOutOp c pk =>
    show DBInv (mark_moved_out db c pk).1
    unfold mark_moved_out
    split
    · exact w
    · split
      · exact w
      · dsimp only
        split
        · next db' heq =>
          obtain ⟨hg, rfl⟩ := dbUpdateTenancy_ok heq
          exact w.update hg rfl (Nat.le_refl _)
        · exact w
  | uploadProofOp c pk f =>
    show DBInv (upload_proof db c pk f).1
    unfold upload_proof
    split
    · exact w
    · split
      · exact w
      · dsimp only
        split
        · next db' heq =>
          obtain ⟨hg, rfl⟩ := dbUpdateTenancy_ok heq
          exact w.update hg rfl (Nat.le_refl _)
        · exact w
  | addRenterOp c pk req =>
    show DBInv (add_renter db c pk req).1
    unfold add_renter
    split
    · exact w
    · rename_i xt tenancy heqT
      split
      · exact w
      · split
        · exact w
        · rename_i xr rp heqV
          split
          · rename_i res db' renter heq
            have hf := add_renter_to_tenancy_frame db tenancy rp.email rp.first_name
              rp.last_name rp.is_primary c.id
            rw [heq] at hf
            exact w.frame hf.1 hf.2
          · exact w

/-- Well-formedness of every state reachable from a well-formed one. -/
theorem reach_inv {db db' : DB} (h : Reach db db') (w : DBInv db) : DBInv db' := by
  induction h with
  | refl => exact w
  | step op _ ih => exact applyOp_inv _ op ih

/-- The counting form of the invariant: at most one active row per
household. -/
theorem DBInv.activeLen {db : DB} (w : DBInv db) (h : Nat) :
    (db.tenancies.filter fun t => t.household == h && t.status == TStatus.active).length
      ≤ 1 := by
  rcases hl : db.tenancies.filter
      fun t => t.household == h && t.status == TStatus.active with _ | ⟨a, _ | ⟨b, rest⟩⟩
  · simp [hl]
  · simp [hl]
  · exfalso
    have hsub : (db.tenancies.filter
        fun t => t.household == h && t.status == TStatus.active).Sublist db.tenancies :=
      List.filter_sublist _
    have hnd : ((db.tenancies.filter
        fun t => t.household == h && t.status == TStatus.active).map Tenancy.id).Nodup :=
      w.nodup.sublist (hsub.map _)
    rw [hl] at hnd hsub
    have ha : a ∈ db.tenancies := hsub.mem (by simp)
    have hb : b ∈ db.tenancies := hsub.mem (by simp)
    have hma : a ∈ db.tenancies.filter
        fun t => t.household == h && t.status == TStatus.active := by
      rw [hl]
      exact List.mem_cons_self _ _
    have hmb : b ∈ db.tenancies.filter
        fun t => t.household == h && t.status == TStatus.active := by
      rw [hl]
      simp
    have hpa := List.of_mem_filter hma
    have hpb := List.of_mem_filter hmb
    simp only [Bool.and_eq_true, beq_iff_eq] at hpa hpb
    have heq := w.oneActive a ha b hb hpa.2 hpb.2 (hpa.1.trans hpb.1.symm)
    simp only [List.map_cons, List.nodup_cons, List.mem_cons] at hnd
    exact hnd.1 (Or.inl heq)

theorem tenancyCreateValidate_fields {r : TenancyCreateReq} {d : TenancyCreateData}
    (h : tenancyCreateValidate r = some d) :
    d.start_date = r.start_date ∧ d.end_date = r.end_date ∧
    tenancyCreateDatesInvalid r.start_date r.end_date = false := by
  unfold tenancyCreateValidate at h
  by_cases h1 : r.household_id = 0
  · rw [if_pos h1] at h
    exact Option.noConfusion h
  · rw [if_neg h1] at h
    by_cases h2 : r.monthly_rent < 0
    · rw [if_pos h2] at h
      exact Option.noConfusion h
    · rw [if_neg h2] at h
      by_cases h3 : r.deposit < 0
      · rw [if_pos h3] at h
        exact Option.noConfusion h
      · rw [if_neg h3] at h
        rcases hps : parseStatus r.status with _ | st
        · rw [hps] at h
          exact Option.noConfusion h
        · rw [hps] at h
          dsimp only at h
          by_cases h4 : tenancyCreateDatesInvalid r.start_date r.end_date = true
          · rw [if_pos h4] at h
            exact Option.noConfusion h
          · rw [if_neg h4] at h
            rcases hm : (r.renters.getD []).mapM renterPayloadValidate with _ | rs
            · rw [hm] at h
              exact Option.noConfusion h
            · rw [hm] at h
              dsimp only at h
              injection h with h
              subst h
              exact ⟨rfl, rfl, by simpa using h4⟩

theorem hasOtherActive_of_mem {ts : List Tenancy} {t u : Tenancy} (hu : u ∈ ts)
    (h1 : u.household = t.household) (h2 : u.status = TStatus.active)
    (h3 : u.id ≠ t.id) : hasOtherActive ts t = true := by
  unfold hasOtherActive
  rw [List.any_eq_true]
  exact ⟨u, hu, by simp [h1, h2, h3]⟩

theorem tenancyClean_activeConflict {ts : List Tenancy} {t : Tenancy}
    (hdate : ∀ e, t.end_date = some e → t.start_date < e)
    (hact : t.status = TStatus.active)
    (hother : hasOtherActive ts t = true) :
    tenancyClean ts t = some CleanError.activeConflict := by
  unfold tenancyClean
  rcases he : t.end_date with _ | e
  · simp only
    simp [hact, hother]
  · have hlt := hdate e he
    dsimp only
    rw [if_neg (by omega)]
    simp [hact, hother]

/-- C2: every reachable state has at most one active tenancy per household,
and each of the four operations that could make a second tenancy of a
household active — tenancy create, tenancy update, the activate action, and
confirm (create and update path) — fails with its conflict error
(`full_clean`'s `ValidationError` for create/update, the explicit 400 for
activate, the unique-constraint `IntegrityError` for confirm) while leaving
the database, and in particular the pre-existing active tenancy,
unchanged. -/
theorem claim_C2_single_active_invariant :
    (∀ db' : DB, Reach DB.empty db' →
      ∀ h : Nat,
        (db'.tenancies.filter
          fun t => t.household == h && t.status == TStatus.active).length ≤ 1) ∧
    (∀ (db : DB) (caller : User) (req : TenancyCreateReq) (d : TenancyCreateData)
        (household : Household) (t' : Tenancy),
      tenancyCreateValidate req = some d →
      db.households.find? (fun x => x.id == d.household_id) = some household →
      (caller.is_admin || household.landlord == caller.id) = true →
      d.status = TStatus.active →
      (∀ u ∈ db.tenancies, u.id < db.nextId) →
      t' ∈ db.tenancies → t'.status = TStatus.active → t'.household = household.id →
      tenancy_create db caller req =
        (db, .error (CreateError.cleanInvalid CleanError.activeConflict))) ∧
    (∀ (db : DB) (caller : User) (pk : Nat) (req : TenancyUpdateReq)
        (d : TenancyUpdateData) (tenancy t' : Tenancy),
      getTenancyObject db caller pk = some tenancy →
      canManage db caller tenancy = true →
      tenancyUpdateValidate req = some d →
      (applyTenancyUpdate tenancy d).status = TStatus.active →
      (∀ e, (applyTenancyUpdate tenancy d).end_date = some e →
        (applyTenancyUpdate tenancy d).start_date < e) →
      t' ∈ db.tenancies → t'.status = TStatus.active →
      t'.household = tenancy.household → t'.id ≠ tenancy.id →
      tenancy_update db caller pk req =
        (db, .error (UpdateError.cleanInvalid CleanError.activeConflict))) ∧
    (∀ (db : DB) (caller : User) (pk : Nat) (tenancy t' : Tenancy),
      getTenancyObject db caller pk = some tenancy →
      canManage db caller tenancy = true →
      t' ∈ db.tenancies → t'.status = TStatus.active →
      t'.household = tenancy.household → t'.id ≠ tenancy.id →
      tenancy_activate db caller pk = (db, .error ActivateError.conflict)) ∧
    (∀ (db : DB) (caller : User) (today : Nat) (req : ConfirmReq)
        (ag : TenancyAgreement) (t' : Tenancy),
      (caller.is_landlord || caller.is_admin) = true →
      tenancyConfirmValidate req ≠ none →
      confirmFindAgreement db caller req.tenancy_agreement_id = some ag →
      db.tenancies.find? (fun t => t.proof_document == some ag.file) = none →
      req.start_date ≤ today →
      (∀ u ∈ db.tenancies, u.id < db.nextId) →
      t' ∈ db.tenancies → t'.status = TStatus.active → t'.household = ag.household →
      confirm_tenancy db caller today req = (db, .error ConfirmError.integrity)) ∧
    (∀ (db : DB) (caller : User) (today : Nat) (req : ConfirmReq)
        (ag : TenancyAgreement) (existing t' : Tenancy),
      (caller.is_landlord || caller.is_admin) = true →
      tenancyConfirmValidate req ≠ none →
      confirmFindAgreement db caller req.tenancy_agreement_id = some ag →
      db.tenancies.find? (fun t => t.proof_document == some ag.file) = some existing →
      req.start_date ≤ today →
      t' ∈ db.tenancies → t'.status = TStatus.active →
      t'.household = existing.household → t'.id ≠ existing.id →
      confirm_tenancy db caller today req = (db, .error ConfirmError.integrity)) := by
  refine ⟨?_, ?_, ?_, ?_, ?_, ?_⟩
  · intro db' hr h
    exact (reach_inv hr DBInv.empty).activeLen h
  · intro db caller req d household t' hd hh hperm hstat hbound ht' ha' hh'
    obtain ⟨hsd, hed, hvdates⟩ := tenancyCreateValidate_fields hd
    have hclean : tenancyClean db.tenancies
        { id := db.nextId, household := household.id, name := "Unnamed Tenancy",
          status := d.status, start_date := d.start_date, end_date := d.end_date,
          monthly_rent := d.monthly_rent, deposit := d.deposit,
          proof_document := none } = some CleanError.activeConflict := by
      apply tenancyClean_activeConflict
      · intro e he
        simp only at he ⊢
        rw [hed] at he
        rw [hsd]
        unfold tenancyCreateDatesInvalid at hvdates
        rw [he] at hvdates
        simp at hvdates
        omega
      · exact hstat
      · exact hasOtherActive_of_mem ht' hh' ha' (by
          have := hbound t' ht'
          simp only
          omega)
    unfold tenancy_create
    simp only [hd, hh, hperm, Bool.not_true, Bool.false_eq_true, if_false]
    simp only [hclean]
  · intro db caller pk req d tenancy t' hget hcan hd hstat hdate ht' ha' hh' hne
    have hclean : tenancyClean db.tenancies (applyTenancyUpdate tenancy d) =
        some CleanError.activeConflict := by
      apply tenancyClean_activeConflict hdate hstat
      exact hasOtherActive_of_mem ht' hh' ha' hne
    unfold tenancy_update
    simp only [hget, hcan, Bool.not_true, Bool.false_eq_true, if_false, hd, hclean]
  · intro db caller pk tenancy t' hget hcan ht' ha' hh' hne
    have hother : hasOtherActive db.tenancies tenancy = true :=
      hasOtherActive_of_mem ht' hh' ha' hne
    unfold tenancy_activate
    simp only [hget, hcan, Bool.not_true, Bool.false_eq_true, if_false, hother, if_true]
  · intro db caller today req ag t' hperm hval hag hfind0 hs hbound ht' ha' hh'
    obtain ⟨d, hd⟩ := Option.ne_none_iff_exists'.mp hval
    obtain ⟨rfl, -⟩ := tenancyConfirmValidate_some hd
    have hguard : ((confirmNewTenancy db
        { req with tenancy_name := pyStrip req.tenancy_name } ag today).status ==
          TStatus.active &&
        hasOtherActive db.tenancies (confirmNewTenancy db
          { req with tenancy_name := pyStrip req.tenancy_name } ag today)) = true := by
      have hst : (confirmNewTenancy db
          { req with tenancy_name := pyStrip req.tenancy_name } ag today).status =
          TStatus.active := by
        unfold confirmNewTenancy
        simp only
        rw [if_pos hs]
      rw [hst]
      simp only [Bool.true_and, beq_self_eq_true]
      exact hasOtherActive_of_mem ht' hh' ha' (by
        have := hbound t' ht'
        simp only [confirmNewTenancy]
        omega)
    have hins : dbInsertTenancy db (confirmNewTenancy db
        { req with tenancy_name := pyStrip req.tenancy_name } ag today) =
        .error "IntegrityError: one_active_tenancy_per_household" := by
      unfold dbInsertTenancy
      rw [hguard]
      simp
    unfold confirm_tenancy
    simp only [hperm, Bool.not_true, Bool.false_eq_true, if_false, hd]
    rw [show ({ req with tenancy_name := pyStrip req.tenancy_name } :
      ConfirmReq).tenancy_agreement_id = req.tenancy_agreement_id from rfl, hag]
    simp only [hfind0, hins]
  · intro db caller today req ag existing t' hperm hval hag hfindex hs ht' ha' hh' hne
    obtain ⟨d, hd⟩ := Option.ne_none_iff_exists'.mp hval
    obtain ⟨rfl, -⟩ := tenancyConfirmValidate_some hd
    have hguard : ((confirmUpdatedTenancy existing
        { req with tenancy_name := pyStrip req.tenancy_name } today).status ==
          TStatus.active &&
        hasOtherActive db.tenancies (confirmUpdatedTenancy existing
          { req with tenancy_name := pyStrip req.tenancy_name } today)) = true := by
      have hst : (confirmUpdatedTenancy existing
          { req with tenancy_name := pyStrip req.tenancy_name } today).status =
          TStatus.active := by
        unfold confirmUpdatedTenancy
        simp only
        rw [if_pos hs]
      rw [hst]
      simp only [Bool.true_and, beq_self_eq_true]
      exact hasOtherActive_of_mem ht' hh' ha' hne
    have hupd : dbUpdateTenancy db (confirmUpdatedTenancy existing
        { req with tenancy_name := pyStrip req.tenancy_name } today) =
        .error "IntegrityError: one_active_tenancy_per_household" := by
      unfold dbUpdateTenancy
      rw [hguard]
      simp
    unfold confirm_tenancy
    simp only [hperm, Bool.not_true, Bool.false_eq_true, if_false, hd]
    rw [show ({ req with tenancy_name := pyStrip req.tenancy_name } :
      ConfirmReq).tenancy_agreement_id = req.tenancy_agreement_id from rfl, hag]
    simp only [hfindex, hupd]

/-- A household with one active and one future tenancy. -/
def c2ActivateDB : DB :=
  { DB.empty with
    households := [{ id := 1, landlord := 1 }]
    tenancies := [{ id := 2, household := 1, name := "A", status := TStatus.active,
                    start_date := 0, end_date := none, monthly_rent := 0, deposit := 0,
                    proof_document := none },
                  { id := 3, household := 1, name := "B", status := TStatus.future,
                    start_date := 5, end_date := none, monthly_rent := 0, deposit := 0,
                    proof_document := none }]
    nextId := 4 }

/-- A household with a processed agreement and an already active tenancy. -/
def c2ConfirmDB : DB :=
  { DB.empty with
    households := [{ id := 1, landlord := 1 }]
    agreements := [confirmExampleAgreement]
    tenancies := [{ id := 9, household := 1, name := "A", status := TStatus.active,
                    start_date := 0, end_date := none, monthly_rent := 0, deposit := 0,
                    proof_document := none }]
    nextId := 10 }

/-- C2 witness: a concrete reachable state satisfies the counting invariant;
activating a second tenancy of an occupied household fails with the
conflict error; confirming into an occupied household fails with the
integrity error — the database unchanged in both cases. -/
theorem claim_C2_witness :
    ((applyOp (applyOp (applyOp DB.empty (Op.createHousehold uploadExampleLandlord))
        (Op.createHousehold uploadExampleLandlord))
        (Op.createTenancy uploadExampleLandlord
          { household_id := 1, start_date := 10, end_date := none, monthly_rent := 0,
            deposit := 0, status := "active", renters := none })).tenancies.filter
      fun t => t.household == 1 && t.status == TStatus.active).length ≤ 1 ∧
    tenancy_activate c2ActivateDB uploadExampleLandlord 3 =
      (c2ActivateDB, .error ActivateError.conflict) ∧
    confirm_tenancy c2ConfirmDB uploadExampleLandlord 100 confirmExampleReq =
      (c2ConfirmDB, .error ConfirmError.integrity) := by
  refine ⟨?_, ?_, ?_⟩
  · exact claim_C2_single_active_invariant.1 _
      (Reach.step _ (Reach.step _ (Reach.step _ (Reach.refl _)))) 1
  · exact claim_C2_single_active_invariant.2.2.2.1 c2ActivateDB uploadExampleLandlord 3
      { id := 3, household := 1, name := "B", status := TStatus.future,
        start_date := 5, end_date := none, monthly_rent := 0, deposit := 0,
        proof_document := none }
      { id := 2, household := 1, name := "A", status := TStatus.active,
        start_date := 0, end_date := none, monthly_rent := 0, deposit := 0,
        proof_document := none }
      rfl rfl (by decide) rfl rfl (by decide)
  · exact claim_C2_single_active_invariant.2.2.2.2.1 c2ConfirmDB uploadExampleLandlord 100
      confirmExampleReq confirmExampleAgreement
      { id := 9, household := 1, name := "A", status := TStatus.active,
        start_date := 0, end_date := none, monthly_rent := 0, deposit := 0,
        proof_document := none }
      rfl
      (by
        intro h
        rw [show tenancyConfirmValidate confirmExampleReq =
          some { confirmExampleReq with tenancy_name := pyStrip "Lease" } from rfl] at h
        exact Option.noConfusion h)
      rfl rfl (by decide) (by decide) (by decide) rfl rfl

end EnergyContracts
